import Mathlib

/-!
# graphics-demo: the application driver of `Source/main.c`

A shallow embedding of `Source/main.c` (with the declarations of
`Source/Util/Shader.h`).  The program is a straight sequence of GLFW / OpenGL
calls followed by a render loop, so it is embedded as world-passing functions:

* `Env` holds everything the environment decides (whether the window is
  created, what the loader returns, the successive clock readings, the
  successive close-flag observations, the resize events delivered by each
  poll, ...);
* `World` holds the sequence of API calls issued so far (`trace`) together with
  the number of readings consumed from each stream of `Env`;
* `glExec` gives the effect of one call on the modelled part of the GL state,
  so the GL state at any moment is `glRun` of the calls issued until then.
-/

namespace GraphicsDemo

/-! ## Constants and value types -/

/-- The macro `SCREEN_WIDTH` (`#define SCREEN_WIDTH 640`). -/
def SCREEN_WIDTH : Int := 640

/-- The macro `SCREEN_HEIGHT` (`#define SCREEN_HEIGHT 640`). -/
def SCREEN_HEIGHT : Int := 640

/-- The macro `FPS` (`#define FPS 60`). -/
def FPS : Int := 60

/-- Symbolic names of the header constants of GL and GLFW that `main.c` uses;
`int n` is an integer literal passed where such a constant is expected. -/
inductive Const
  | GL_FALSE
  | GL_TRUE
  | GL_FLOAT
  | GL_TRIANGLES
  | GL_ARRAY_BUFFER
  | GL_STATIC_DRAW
  | GL_COLOR_BUFFER_BIT
  | GLFW_RESIZABLE
  | GLFW_CONTEXT_VERSION_MAJOR
  | GLFW_CONTEXT_VERSION_MINOR
  | GLFW_OPENGL_PROFILE
  | GLFW_OPENGL_CORE_PROFILE
  | GLFW_OPENGL_FORWARD_COMPAT
  | int (n : Int)
  deriving DecidableEq, Repr

/-- A finite floating-point datum, identified with the rational it denotes.
Every `float` literal of `main.c` (`-1.0f`, `1.0f`, `0.0f`, `640`) is exactly
representable. -/
abbrev GLfloat := ℚ

/-- A `float` value that is the result of a conversion: a rational, or `⊤` for
`+inf`, or `⊥` for `-inf`. -/
abbrev CFloat := WithBot (WithTop ℚ)

/-- The size of a `float`, `sizeof(float)`, in bytes. -/
def sizeof_float : Nat := 4

/-- The `ShaderPtr` of `Util/Shader.h`: an opaque handle; `ID` is the raw GPU
program name that `GetID` exposes. -/
structure ShaderPtr where
  ID : Nat
  deriving DecidableEq, Repr

/-- The API calls the program issues, with their arguments. -/
inductive Call
  | glfwInit
  | glfwWindowHint (hint value : Const)
  | glfwCreateWindow (width height : Int) (title : String)
  | glfwTerminate
  | fprintf_stderr (text : String)
  | glfwMakeContextCurrent (window : Nat)
  | gladLoadGLLoader
  | glViewport (x y width height : Int)
  | glfwSetFramebufferSizeCallback (window : Nat)
  | glClearColor (r g b a : GLfloat)
  | glClear (mask : Const)
  | NewShader (vertex_path fragment_path : String)
  | shaderDiagnostic (text : String)
  | glGenVertexArrays (n : Nat)
  | glGenBuffers (n : Nat)
  | glBindVertexArray (array : Nat)
  | glBindBuffer (target : Const) (buffer : Nat)
  | glBufferData (target : Const) (size : Nat) (data : List GLfloat) (usage : Const)
  | glVertexAttribPointer (index size : Nat) (type normalized : Const) (stride pointer : Nat)
  | glEnableVertexAttribArray (index : Nat)
  | GetID (shader : ShaderPtr)
  | glGetUniformLocation (program : Nat) (name : String)
  | glUniform3fv (location : Int) (count : Nat) (value : List GLfloat)
  | Use (shader : ShaderPtr)
  | SetFloat (shader : ShaderPtr) (name : String) (value : CFloat)
  | glfwGetTime
  | glfwWindowShouldClose (window : Nat)
  | glfwPollEvents
  | glDrawArrays (mode : Const) (first count : Int)
  | glfwSwapBuffers (window : Nat)
  deriving DecidableEq

/-! ## The environment -/

/-- What the GPU compiler and linker answer when the shader program is built. -/
structure ShaderBuild where
  vertexCompiles : Bool
  fragmentCompiles : Bool
  links : Bool
  diagnostic : String
  program : Nat

/-- Everything the environment decides during one run. -/
structure Env where
  /-- whether `__APPLE__` is defined -/
  apple : Bool
  /-- the pointer `glfwCreateWindow` returns; `0` is `NULL` -/
  createWindow : Nat
  /-- the value `gladLoadGLLoader` returns; `0` is failure -/
  gladLoad : Int
  /-- the outcome of building the shader program -/
  shader : ShaderBuild
  /-- The call `glGenVertexArrays` hands out the name `genVertexArray + 1` (names are never 0) -/
  genVertexArray : Nat
  /-- The call `glGenBuffers` hands out the name `genBuffer + 1` (names are never 0) -/
  genBuffer : Nat
  /-- the answer of `glGetUniformLocation program name`; `-1` when the name is
  not an active uniform -/
  uniformLocation : Nat → String → Int
  /-- the successive values `glfwGetTime` returns, in call order -/
  clock : Nat → ℚ
  /-- the successive values `glfwWindowShouldClose` returns, in call order -/
  shouldClose : Nat → Int
  /-- the framebuffer-resize events `(width, height)` each `glfwPollEvents`
  delivers, in call order -/
  resizeEvents : Nat → List (Int × Int)

/-- The calls issued so far and the number of readings taken from each stream
of the environment. -/
structure World where
  trace : List Call
  clockReads : Nat
  closeChecks : Nat
  pollCount : Nat
  /-- the window on which `framebuffer_size_callback` is registered, if any -/
  fbSizeCallback : Option Nat

/-- The world at process start. -/
def World.init : World :=
  { trace := [], clockReads := 0, closeChecks := 0, pollCount := 0, fbSizeCallback := none }

/-- How a run of `main` ends: `main` returned `code`; or the whole process was
terminated inside `NewShader`; or the run is still in the render loop after the
given number of close-flag checks. -/
inductive Exit
  | returned (code : Int)
  | fatal
  | running
  deriving DecidableEq, Repr

/-- Record one API call. -/
def call (c : Call) (w : World) : World :=
  { w with trace := w.trace ++ [c] }

/-! ## double to float -/

/-- Round to the nearest integer, ties to the even one. -/
def roundHalfEven (t : ℚ) : ℤ :=
  if t - ⌊t⌋ < 1 / 2 then ⌊t⌋
  else if 1 / 2 < t - ⌊t⌋ then ⌊t⌋ + 1
  else if ⌊t⌋ % 2 = 0 then ⌊t⌋ else ⌊t⌋ + 1

/-- The exponent of the binade of a positive real, not below the least exponent `-126` of
binary32 (below it the numbers are subnormal). -/
def binade (x : ℚ) : ℤ := max (Int.log 2 x) (-126)

/-- The distance between neighbouring binary32 numbers in the binade of `x`: 24 significant
bits. -/
def quantum (x : ℚ) : ℚ := 2 ^ (binade x - 23)

/-- The multiple of the quantum nearest to `x`, ties to the even multiple. -/
def roundToGrid (x : ℚ) : ℚ := (roundHalfEven (x / quantum x) : ℚ) * quantum x

/-- IEEE 754 binary32 rounding (to nearest, ties to even) of a non-negative real, with
overflow to `+inf` (`⊤`). -/
def roundBinary32 (x : ℚ) : WithTop ℚ :=
  if roundToGrid x < 2 ^ (128 : ℤ) then ((roundToGrid x : ℚ) : WithTop ℚ) else ⊤

/-- The implicit conversion of a finite `double` argument to a `float`
parameter (as at the call `SetFloat(shader, "iTime", glfwGetTime())`, whose
prototype declares `float value`). -/
def doubleToFloat (x : ℚ) : CFloat :=
  if 0 ≤ x then ((roundBinary32 x : WithTop ℚ) : CFloat)
  else
    match roundBinary32 (-x) with
    | some y => (((-y : ℚ) : WithTop ℚ) : CFloat)
    | none => ⊥

/-! ## The GLFW / GL / Shader operations used by `main.c` -/

def glfwInit (w : World) : World := call .glfwInit w

def glfwWindowHint (hint value : Const) (w : World) : World :=
  call (.glfwWindowHint hint value) w

def glfwCreateWindow (env : Env) (width height : Int) (title : String) (w : World) :
    Nat × World :=
  (env.createWindow, call (.glfwCreateWindow width height title) w)

def glfwTerminate (w : World) : World := call .glfwTerminate w

/-- The call `fprintf(stderr, text)`. -/
def fprintf_stderr (text : String) (w : World) : World := call (.fprintf_stderr text) w

def glfwMakeContextCurrent (window : Nat) (w : World) : World :=
  call (.glfwMakeContextCurrent window) w

def gladLoadGLLoader (env : Env) (w : World) : Int × World :=
  (env.gladLoad, call .gladLoadGLLoader w)

def glViewport (x y width height : Int) (w : World) : World :=
  call (.glViewport x y width height) w

def glfwSetFramebufferSizeCallback (window : Nat) (w : World) : World :=
  { call (.glfwSetFramebufferSizeCallback window) w with fbSizeCallback := some window }

def glClearColor (r g b a : GLfloat) (w : World) : World := call (.glClearColor r g b a) w

def glClear (mask : Const) (w : World) : World := call (.glClear mask) w

def glGenVertexArrays (env : Env) (n : Nat) (w : World) : Nat × World :=
  (env.genVertexArray + 1, call (.glGenVertexArrays n) w)

def glGenBuffers (env : Env) (n : Nat) (w : World) : Nat × World :=
  (env.genBuffer + 1, call (.glGenBuffers n) w)

def glBindVertexArray (array : Nat) (w : World) : World := call (.glBindVertexArray array) w

def glBindBuffer (target : Const) (buffer : Nat) (w : World) : World :=
  call (.glBindBuffer target buffer) w

def glBufferData (target : Const) (size : Nat) (data : List GLfloat) (usage : Const)
    (w : World) : World :=
  call (.glBufferData target size data usage) w

def glVertexAttribPointer (index size : Nat) (type normalized : Const) (stride pointer : Nat)
    (w : World) : World :=
  call (.glVertexAttribPointer index size type normalized stride pointer) w

def glEnableVertexAttribArray (index : Nat) (w : World) : World :=
  call (.glEnableVertexAttribArray index) w

def glGetUniformLocation (env : Env) (program : Nat) (name : String) (w : World) :
    Int × World :=
  (env.uniformLocation program name, call (.glGetUniformLocation program name) w)

def glUniform3fv (location : Int) (count : Nat) (value : List GLfloat) (w : World) : World :=
  call (.glUniform3fv location count value) w

def glfwGetTime (env : Env) (w : World) : ℚ × World :=
  (env.clock w.clockReads, { call .glfwGetTime w with clockReads := w.clockReads + 1 })

def glfwWindowShouldClose (env : Env) (window : Nat) (w : World) : Int × World :=
  (env.shouldClose w.closeChecks,
    { call (.glfwWindowShouldClose window) w with closeChecks := w.closeChecks + 1 })

def glDrawArrays (mode : Const) (first count : Int) (w : World) : World :=
  call (.glDrawArrays mode first count) w

def glfwSwapBuffers (window : Nat) (w : World) : World := call (.glfwSwapBuffers window) w

/-- Modelled from the spec: `NewShader` is declared in `Util/Shader.h` but its
body (`Util/Shader.c`) is missing.  Spec 4.1: the two stages are compiled and
checked, then linked and checked; "if either fails, report the compiler's
diagnostic text and terminate the whole program"; on success the linked program
handle is returned.  `none` means that the whole program was terminated. -/
def NewShader (env : Env) (vertex_path fragment_path : String) (w : World) :
    Option ShaderPtr × World :=
  if env.shader.vertexCompiles && env.shader.fragmentCompiles && env.shader.links then
    (some { ID := env.shader.program }, call (.NewShader vertex_path fragment_path) w)
  else
    (none, call (.shaderDiagnostic env.shader.diagnostic)
      (call (.NewShader vertex_path fragment_path) w))

/-- Modelled from the spec: `Use` is declared in `Util/Shader.h`, its body is
missing.  Spec 4.1: "makes this program the active one for subsequent draw
calls. No return value; side effect only" (the effect is in `glExec`). -/
def Use (shader : ShaderPtr) (w : World) : World := call (.Use shader) w

/-- Modelled from the spec: `SetFloat` is declared in `Util/Shader.h`
(`float value`), its body is missing.  Spec 4.1: "looks up the uniform location
by name within the given program and uploads the value" (the effect is in
`glExec`). -/
def SetFloat (shader : ShaderPtr) (name : String) (value : CFloat) (w : World) : World :=
  call (.SetFloat shader name value) w

/-- Modelled from the spec: `GetID` is declared in `Util/Shader.h`, its body is
missing.  Spec 4.1: "returns the raw integer handle". -/
def GetID (shader : ShaderPtr) (w : World) : Nat × World :=
  (shader.ID, call (.GetID shader) w)

/-! ## `main.c` -/

/-- The function `framebuffer_size_callback` (main.c, lines 151-153). -/
def framebuffer_size_callback (_window : Nat) (width height : Int) (w : World) : World :=
  glViewport 0 0 width height w

/-- The call `glfwPollEvents`: every framebuffer-resize event that is delivered goes to
the registered callback, in order.  The only callback `main.c` ever registers
is `framebuffer_size_callback`. -/
def glfwPollEvents (env : Env) (w : World) : World :=
  match w.fbSizeCallback with
  | none => { call .glfwPollEvents w with pollCount := w.pollCount + 1 }
  | some window =>
    (env.resizeEvents w.pollCount).foldl
      (fun w e => framebuffer_size_callback window e.1 e.2 w)
      { call .glfwPollEvents w with pollCount := w.pollCount + 1 }

/-- The function `init_glfw` (main.c, lines 129-138). -/
def init_glfw (env : Env) (w : World) : World :=
  let w := glfwInit w
  let w := glfwWindowHint .GLFW_RESIZABLE .GL_FALSE w
  let w := glfwWindowHint .GLFW_CONTEXT_VERSION_MAJOR (.int 3) w
  let w := glfwWindowHint .GLFW_CONTEXT_VERSION_MINOR (.int 3) w
  let w := glfwWindowHint .GLFW_OPENGL_PROFILE .GLFW_OPENGL_CORE_PROFILE w
  if env.apple then glfwWindowHint .GLFW_OPENGL_FORWARD_COMPAT .GL_TRUE w else w

/-- The function `init_glad` (main.c, lines 140-149). -/
def init_glad (env : Env) (w : World) : Int × World :=
  let (loaded, w) := gladLoadGLLoader env w
  if loaded = 0 then
    let w := glfwTerminate w
    let w := fprintf_stderr "fatal error: Failed to initialize GLAD" w
    (0, w)
  else
    (1, w)

/-- The array `vertices` of `main` (lines 64-73). -/
def vertices : List GLfloat :=
  [-1, 1,
    1, 1,
    1, -1,
    1, -1,
    -1, -1,
    -1, 1]

/-- The size of the array, `sizeof(vertices)`, in bytes. -/
def sizeof_vertices : Nat := vertices.length * sizeof_float

/-- The array `resolution` of `main` (line 81). -/
def resolution : List GLfloat := [(SCREEN_WIDTH : ℚ), (SCREEN_HEIGHT : ℚ), 1]

/-- The variable `static double limit_FPS = 1.0 / FPS;` (the arithmetic on `double` is taken
exact). -/
def limit_FPS : ℚ := 1 / (FPS : ℚ)

/-- The local variables of the game loop of `main` (lines 93-95). -/
structure Locals where
  previous_time : ℚ
  timer : ℚ
  delta_time : ℚ
  now_time : ℚ
  frames : Int
  updates : Int

/-- The increment `++frames` of a 32-bit `int`, taken to wrap around. -/
def incrInt (n : Int) : Int := (n + 1 + 2 ^ 31) % 2 ^ 32 - 2 ^ 31

/-- The body of the `while` loop of `main` (lines 97-125). -/
def frame (env : Env) (window : Nat) (shader : ShaderPtr) (vao vbo : Nat) (ls : Locals)
    (w : World) : Locals × World :=
  let (now_time, w) := glfwGetTime env w
  let delta_time := ls.delta_time + (now_time - ls.previous_time) / limit_FPS
  let previous_time := now_time
  let w := glfwPollEvents env w
  let w := glClear .GL_COLOR_BUFFER_BIT w
  let w := glBindVertexArray vao w
  let w := Use shader w
  let (time, w) := glfwGetTime env w
  let w := SetFloat shader "iTime" (doubleToFloat time) w
  let (id, w) := GetID shader w
  let (location, w) := glGetUniformLocation env id "iResolution" w
  let w := glUniform3fv location 1 resolution w
  let w := glBindBuffer .GL_ARRAY_BUFFER vbo w
  let w := glDrawArrays .GL_TRIANGLES 0 6 w
  let w := glBindVertexArray 0 w
  let frames := incrInt ls.frames
  let w := glfwSwapBuffers window w
  ({ ls with now_time := now_time, delta_time := delta_time, previous_time := previous_time,
             frames := frames }, w)

/-- The `while (!glfwWindowShouldClose(window))` loop of `main` (lines 96-127).
`fuel` bounds the number of close-flag checks that are followed; when it is
used up the run is reported as still `running`.  When the loop ends, control
reaches the closing brace of `main`, which returns 0. -/
def render_loop (env : Env) (window : Nat) (shader : ShaderPtr) (vao vbo : Nat) :
    Nat → Locals → World → World × Exit
  | 0, _, w => (w, .running)
  | fuel + 1, ls, w =>
    let (close, w) := glfwWindowShouldClose env window w
    if close ≠ 0 then (w, .returned 0)
    else
      let (ls, w) := frame env window shader vao vbo ls w
      render_loop env window shader vao vbo fuel ls w

/-- The function `main` (main.c, lines 22-127). -/
def main (env : Env) (fuel : Nat) : World × Exit :=
  let w := init_glfw env World.init
  let (window, w) := glfwCreateWindow env SCREEN_WIDTH SCREEN_HEIGHT "Graphics Demo" w
  if window = 0 then
    let w := glfwTerminate w
    let w := fprintf_stderr "fatal error: Failed to create GLFW window\n" w
    (w, .returned (-1))
  else
    let w := glfwMakeContextCurrent window w
    let (glad, w) := init_glad env w
    if glad = 0 then (w, .returned (-1))
    else
      let w := glViewport 0 0 SCREEN_WIDTH SCREEN_HEIGHT w
      let w := glfwSetFramebufferSizeCallback window w
      let w := glClearColor 0 0 0 1 w
      let w := glClear .GL_COLOR_BUFFER_BIT w
      match NewShader env "Shaders/vertex.vert" "Shaders/fragment.frag" w with
      | (none, w) => (w, .fatal)
      | (some shader, w) =>
        let (vao, w) := glGenVertexArrays env 1 w
        let (vbo, w) := glGenBuffers env 1 w
        let w := glBindVertexArray vao w
        let w := glBindBuffer .GL_ARRAY_BUFFER vbo w
        let w := glBufferData .GL_ARRAY_BUFFER sizeof_vertices vertices .GL_STATIC_DRAW w
        let w := glVertexAttribPointer 0 2 .GL_FLOAT .GL_FALSE (2 * sizeof_float) 0 w
        let w := glEnableVertexAttribArray 0 w
        let (id, w) := GetID shader w
        let (location, w) := glGetUniformLocation env id "iResolution" w
        let w := glUniform3fv location 1 resolution w
        let w := glBindVertexArray 0 w
        let w := glBindBuffer .GL_ARRAY_BUFFER 0 w
        let (previous_time, w) := glfwGetTime env w
        render_loop env window shader vao vbo fuel
          { previous_time := previous_time, timer := previous_time, delta_time := 0,
            now_time := 0, frames := 0, updates := 0 } w

/-! ## The modelled GL state -/

/-- The viewport rectangle. -/
structure Viewport where
  x : Int
  y : Int
  width : Int
  height : Int
  deriving DecidableEq, Repr

/-- The layout of one vertex attribute as recorded in a vertex array object;
`buffer` is the buffer that was bound to `GL_ARRAY_BUFFER` when
`glVertexAttribPointer` was called. -/
structure AttribLayout where
  size : Nat
  type : Const
  normalized : Const
  stride : Nat
  pointer : Nat
  buffer : Nat
  deriving DecidableEq

/-- The data store of a buffer object. -/
structure BufferObject where
  data : List GLfloat
  size : Nat
  usage : Const
  deriving DecidableEq

/-- The value of a uniform. -/
inductive UniformValue
  | float (v : CFloat)
  | vec3 (v : List GLfloat)
  deriving DecidableEq

/-- The part of the GL state that the calls of `main.c` touch. -/
structure GLState where
  viewport : Viewport
  /-- the implementation limit `GL_MAX_VIEWPORT_DIMS` (width); no call changes it -/
  maxViewportWidth : Int
  /-- the implementation limit `GL_MAX_VIEWPORT_DIMS` (height); no call changes it -/
  maxViewportHeight : Int
  clearColor : List GLfloat
  vertexArrayBinding : Nat
  arrayBufferBinding : Nat
  currentProgram : Nat
  /-- buffer name ↦ data store -/
  buffers : Nat → Option BufferObject
  /-- vertex array name ↦ attribute index ↦ layout -/
  attribs : Nat → Nat → Option AttribLayout
  /-- vertex array name ↦ attribute index ↦ enabled -/
  attribEnabled : Nat → Nat → Bool
  /-- program name ↦ uniform location ↦ value -/
  uniforms : Nat → Int → Option UniformValue

/-- The GL state of a fresh context, on an implementation whose
`GL_MAX_VIEWPORT_DIMS` is 16384 x 16384. -/
def GLState.init : GLState :=
  { viewport := ⟨0, 0, 0, 0⟩, maxViewportWidth := 16384, maxViewportHeight := 16384,
    clearColor := [0, 0, 0, 0], vertexArrayBinding := 0,
    arrayBufferBinding := 0, currentProgram := 0, buffers := fun _ => none,
    attribs := fun _ _ => none, attribEnabled := fun _ _ => false,
    uniforms := fun _ _ => none }

/-- Upload of a uniform value: it goes to the active program; location `-1` is
silently ignored, and without an active program nothing is stored. -/
def GLState.upload (s : GLState) (location : Int) (v : UniformValue) : GLState :=
  if s.currentProgram = 0 ∨ location = -1 then s
  else
    { s with
      uniforms := Function.update s.uniforms s.currentProgram
                    (Function.update (s.uniforms s.currentProgram) location (some v)) }

/-- The effect of one call on the modelled GL state.  `loc` answers
`glGetUniformLocation`.  `glViewport` with a negative width or height is an
error (`GL_INVALID_VALUE`) and leaves the viewport as it was; otherwise the
width and the height are clamped to `GL_MAX_VIEWPORT_DIMS`.  `Use` and
`SetFloat` act as the spec describes them (4.1: make the program active; look
the name up in the given program and upload the value).  Calls that only read,
or only touch the window system or the framebuffer contents, leave the modelled
state as it is. -/
def glExec (loc : Nat → String → Int) (s : GLState) : Call → GLState
  | .glViewport x y width height =>
    if width < 0 ∨ height < 0 then s
    else
      { s with
        viewport := ⟨x, y, min width s.maxViewportWidth, min height s.maxViewportHeight⟩ }
  | .glClearColor r g b a => { s with clearColor := [r, g, b, a] }
  | .glBindVertexArray array => { s with vertexArrayBinding := array }
  | .glBindBuffer _ buffer => { s with arrayBufferBinding := buffer }
  | .glBufferData _ size data usage =>
    if s.arrayBufferBinding = 0 then s
    else
      { s with
        buffers := Function.update s.buffers s.arrayBufferBinding
                    (some { data := data, size := size, usage := usage }) }
  | .glVertexAttribPointer index size type normalized stride pointer =>
    if s.vertexArrayBinding = 0 then s
    else
      { s with
        attribs := Function.update s.attribs s.vertexArrayBinding
                    (Function.update (s.attribs s.vertexArrayBinding) index
                      (some { size := size, type := type, normalized := normalized,
                              stride := stride, pointer := pointer,
                              buffer := s.arrayBufferBinding })) }
  | .glEnableVertexAttribArray index =>
    if s.vertexArrayBinding = 0 then s
    else
      { s with
        attribEnabled := Function.update s.attribEnabled s.vertexArrayBinding
                          (Function.update (s.attribEnabled s.vertexArrayBinding) index true) }
  | .glUniform3fv location _ value => s.upload location (.vec3 value)
  | .Use shader => { s with currentProgram := shader.ID }
  | .SetFloat shader name value => s.upload (loc shader.ID name) (.float value)
  | _ => s

/-- The GL state after a sequence of calls. -/
def glRun (loc : Nat → String → Int) (s : GLState) (calls : List Call) : GLState :=
  calls.foldl (glExec loc) s

/-- Whether a call is a draw call. -/
def Call.isDraw : Call → Bool
  | .glDrawArrays _ _ _ => true
  | _ => false

/-- The GL states in which the draw calls of a call sequence are issued, one
per draw call, in order. -/
def glDrawStates (loc : Nat → String → Int) : GLState → List Call → List GLState
  | _, [] => []
  | s, c :: cs =>
    if c.isDraw then s :: glDrawStates loc (glExec loc s c) cs
    else glDrawStates loc (glExec loc s c) cs

/-- The byte offsets that `glDrawArrays(_, first, count)` fetches from the
buffer of an attribute with the given layout: `size` floats for each of the
vertices `first, ..., first + count - 1`, vertex `i` starting at
`pointer + i * stride` (a stride of 0 means tightly packed). -/
def fetchedBytes (a : AttribLayout) (first count : Nat) : List Nat :=
  ((List.range count).map fun i =>
    (List.range (a.size * sizeof_float)).map fun j =>
      a.pointer + (first + i) * (if a.stride = 0 then a.size * sizeof_float else a.stride)
        + j).flatten

/-! ## Closed forms of the call sequences -/

/-- The calls of `init_glfw`. -/
def initGlfwCalls (env : Env) : List Call :=
  [.glfwInit,
   .glfwWindowHint .GLFW_RESIZABLE .GL_FALSE,
   .glfwWindowHint .GLFW_CONTEXT_VERSION_MAJOR (.int 3),
   .glfwWindowHint .GLFW_CONTEXT_VERSION_MINOR (.int 3),
   .glfwWindowHint .GLFW_OPENGL_PROFILE .GLFW_OPENGL_CORE_PROFILE]
  ++ (if env.apple then [.glfwWindowHint .GLFW_OPENGL_FORWARD_COMPAT .GL_TRUE] else [])

/-- The calls of `main` up to the creation of the window. -/
def windowCalls (env : Env) : List Call :=
  initGlfwCalls env ++ [.glfwCreateWindow SCREEN_WIDTH SCREEN_HEIGHT "Graphics Demo"]

/-- The calls of `main` from a created window up to the construction of the
shader program. -/
def contextCalls (env : Env) : List Call :=
  [.glfwMakeContextCurrent env.createWindow,
   .gladLoadGLLoader,
   .glViewport 0 0 SCREEN_WIDTH SCREEN_HEIGHT,
   .glfwSetFramebufferSizeCallback env.createWindow,
   .glClearColor 0 0 0 1,
   .glClear .GL_COLOR_BUFFER_BIT,
   .NewShader "Shaders/vertex.vert" "Shaders/fragment.frag"]

/-- The calls of `main` from a constructed shader program up to the first
close-flag check. -/
def sceneCalls (env : Env) : List Call :=
  [.glGenVertexArrays 1,
   .glGenBuffers 1,
   .glBindVertexArray (env.genVertexArray + 1),
   .glBindBuffer .GL_ARRAY_BUFFER (env.genBuffer + 1),
   .glBufferData .GL_ARRAY_BUFFER sizeof_vertices vertices .GL_STATIC_DRAW,
   .glVertexAttribPointer 0 2 .GL_FLOAT .GL_FALSE (2 * sizeof_float) 0,
   .glEnableVertexAttribArray 0,
   .GetID { ID := env.shader.program },
   .glGetUniformLocation env.shader.program "iResolution",
   .glUniform3fv (env.uniformLocation env.shader.program "iResolution") 1 resolution,
   .glBindVertexArray 0,
   .glBindBuffer .GL_ARRAY_BUFFER 0,
   .glfwGetTime]

/-- The calls that the resize callback issues for a list of delivered events. -/
def callbackCalls (events : List (Int × Int)) : List Call :=
  events.map fun e => Call.glViewport 0 0 e.1 e.2

/-- The calls of the part of a frame that follows event polling, when the
frame's second clock reading is reading number `c`. -/
def renderCalls (env : Env) (c : Nat) : List Call :=
  [.glClear .GL_COLOR_BUFFER_BIT,
   .glBindVertexArray (env.genVertexArray + 1),
   .Use { ID := env.shader.program },
   .glfwGetTime,
   .SetFloat { ID := env.shader.program } "iTime" (doubleToFloat (env.clock c)),
   .GetID { ID := env.shader.program },
   .glGetUniformLocation env.shader.program "iResolution",
   .glUniform3fv (env.uniformLocation env.shader.program "iResolution") 1 resolution,
   .glBindBuffer .GL_ARRAY_BUFFER (env.genBuffer + 1),
   .glDrawArrays .GL_TRIANGLES 0 6,
   .glBindVertexArray 0,
   .glfwSwapBuffers env.createWindow]

/-- The calls of frame number `i` (counted from 0) of a run. -/
def frameCalls (env : Env) (i : Nat) : List Call :=
  [.glfwGetTime, .glfwPollEvents] ++ callbackCalls (env.resizeEvents i)
    ++ renderCalls env (2 * i + 2)

/-- The calls of the frames `i, ..., i + n - 1`, each preceded by its
close-flag check. -/
def framesCalls (env : Env) : Nat → Nat → List Call
  | 0, _ => []
  | n + 1, i =>
    (.glfwWindowShouldClose env.createWindow :: frameCalls env i) ++ framesCalls env n (i + 1)

/-- The world in which iteration `i` of the render loop starts, given the
calls issued before it. -/
def loopWorld (env : Env) (pre : List Call) (i : Nat) : World :=
  { trace := pre, clockReads := 2 * i + 1, closeChecks := i, pollCount := i,
    fbSizeCallback := some env.createWindow }

/-- The local variables with which the render loop is entered. -/
def loopLocals (env : Env) : Locals :=
  { previous_time := env.clock 0, timer := env.clock 0, delta_time := 0, now_time := 0,
    frames := 0, updates := 0 }

/-! ## Notions used in the statements -/

/-- The world right after the close-flag check number `i` found the flag set. -/
def closedWorld (env : Env) (pre : List Call) (i : Nat) : World :=
  { trace := pre ++ [.glfwWindowShouldClose env.createWindow], clockReads := 2 * i + 1,
    closeChecks := i + 1, pollCount := i, fbSizeCallback := some env.createWindow }

/-- Whether the shader program gets built. -/
def Env.shaderBuilds (env : Env) : Bool :=
  env.shader.vertexCompiles && env.shader.fragmentCompiles && env.shader.links

/-- The calls of `main` before the render loop, in a run that reaches it. -/
def setupCalls (env : Env) : List Call :=
  windowCalls env ++ contextCalls env ++ sceneCalls env

/-- Whether a call presents a frame. -/
def Call.isSwap : Call → Bool
  | .glfwSwapBuffers _ => true
  | _ => false

/-- Whether a call is a check of the close flag. -/
def Call.isCloseCheck : Call → Bool
  | .glfwWindowShouldClose _ => true
  | _ => false

/-- Whether a call writes the data store of a buffer object. -/
def Call.isBufferWrite : Call → Bool
  | .glBufferData _ _ _ _ => true
  | _ => false

/-- Whether a call sets the layout of a vertex attribute or enables one. -/
def Call.isLayoutWrite : Call → Bool
  | .glVertexAttribPointer _ _ _ _ _ _ => true
  | .glEnableVertexAttribArray _ => true
  | _ => false

/-- Whether a call constructs a shader program or hands a shader handle on. -/
def Call.usesShader : Call → Bool
  | .NewShader _ _ => true
  | .GetID _ => true
  | .Use _ => true
  | .SetFloat _ _ _ => true
  | _ => false

/-- Whether a call hands a shader handle to `GetID`, `Use` or `SetFloat`. -/
def Call.usesHandle : Call → Bool
  | .GetID _ => true
  | .Use _ => true
  | .SetFloat _ _ _ => true
  | _ => false

/-- Whether a call uploads a uniform value. -/
def Call.isUpload : Call → Bool
  | .glUniform3fv _ _ _ => true
  | .SetFloat _ _ _ => true
  | _ => false

/-- Whether a call creates a GL object (a buffer or a vertex array). -/
def Call.isGen : Call → Bool
  | .glGenBuffers _ => true
  | .glGenVertexArrays _ => true
  | _ => false

/-- Whether a call only asks for a value (the clock, the program name of a handle, the
location of a uniform) and changes nothing. -/
def Call.isQuery : Call → Bool
  | .glfwGetTime => true
  | .GetID _ => true
  | .glGetUniformLocation _ _ => true
  | _ => false

/-- Whether a call is a `glViewport` (in a frame: the work of the resize callback while
events are polled). -/
def Call.isViewport : Call → Bool
  | .glViewport _ _ _ _ => true
  | _ => false

/-- A GL state that is ready for the draw call of a frame: the shader program is the
active program, the vertex array and the vertex buffer are bound, and (for a real program
name and an active uniform) "iResolution" holds the uploaded vector. -/
def DrawReady (env : Env) (s : GLState) : Prop :=
  s.currentProgram = env.shader.program
  ∧ s.vertexArrayBinding = env.genVertexArray + 1
  ∧ s.arrayBufferBinding = env.genBuffer + 1
  ∧ (env.shader.program ≠ 0 → env.uniformLocation env.shader.program "iResolution" ≠ -1 →
      s.uniforms env.shader.program (env.uniformLocation env.shader.program "iResolution")
        = some (.vec3 resolution))

/-- The "iTime" uniform of the shader program holds `v` (stated for a real program name and
an active uniform whose location is not that of "iResolution"). -/
def TimeIs (env : Env) (v : CFloat) (s : GLState) : Prop :=
  env.shader.program ≠ 0 → env.uniformLocation env.shader.program "iTime" ≠ -1 →
    env.uniformLocation env.shader.program "iTime"
      ≠ env.uniformLocation env.shader.program "iResolution" →
    s.uniforms env.shader.program (env.uniformLocation env.shader.program "iTime")
      = some (.float v)

/-- The data store of the vertex buffer as `main` fills it. -/
def vertexBufferObject : BufferObject :=
  { data := vertices, size := sizeof_vertices, usage := .GL_STATIC_DRAW }

/-- The layout of attribute 0 as `main` records it in the vertex array object. -/
def positionLayout (env : Env) : AttribLayout :=
  { size := 2, type := .GL_FLOAT, normalized := .GL_FALSE, stride := 2 * sizeof_float,
    pointer := 0, buffer := env.genBuffer + 1 }

/-- The scene of `main` is in place in a GL state: the vertex buffer holds `vertices` and
the vertex array records the layout of attribute 0, enabled. -/
def SceneIntact (env : Env) (s : GLState) : Prop :=
  s.buffers (env.genBuffer + 1) = some vertexBufferObject
  ∧ s.attribs (env.genVertexArray + 1) 0 = some (positionLayout env)
  ∧ s.attribEnabled (env.genVertexArray + 1) 0 = true

/-- The floats that a draw call fetches for vertex `k` from a buffer holding `data`, for
an attribute with the given layout: `size` consecutive floats starting at byte
`pointer + k * stride`. -/
def fetchVertex (data : List GLfloat) (a : AttribLayout) (k : Nat) : List GLfloat :=
  (List.range a.size).map fun j =>
    data.getD
      ((a.pointer + k * (if a.stride = 0 then a.size * sizeof_float else a.stride))
        / sizeof_float + j) 0

/-- The vertices that `glDrawArrays(_, first, count)` fetches. -/
def drawnVertices (data : List GLfloat) (a : AttribLayout) (first count : Nat) :
    List (List GLfloat) :=
  (List.range count).map fun i => fetchVertex data a (first + i)

/-- Vertex number `k` of the array `vertices`, as a point. -/
def vertexAt (k : Nat) : ℚ × ℚ := (vertices.getD (2 * k) 0, vertices.getD (2 * k + 1) 0)

/-- Twice the signed area of the triangle `a b c` (positive when counter-clockwise). -/
def cross {K : Type} [LinearOrderedField K] (a b c : K × K) : K :=
  (b.1 - a.1) * (c.2 - a.2) - (b.2 - a.2) * (c.1 - a.1)

/-- The (unsigned) area of the triangle `a b c`. -/
def triangleArea {K : Type} [LinearOrderedField K] (a b c : K × K) : K := |cross a b c| / 2

/-- The point `p` lies in the closed triangle `a b c`. -/
def inTriangle {K : Type} [LinearOrderedField K] (a b c p : K × K) : Prop :=
  (0 ≤ cross a b p ∧ 0 ≤ cross b c p ∧ 0 ≤ cross c a p)
  ∨ (cross a b p ≤ 0 ∧ cross b c p ≤ 0 ∧ cross c a p ≤ 0)

/-- A point with rational coordinates, seen in the field `K`. -/
def toField (K : Type) [LinearOrderedField K] (q : ℚ × ℚ) : K × K := ((q.1 : K), (q.2 : K))

/-- Whether a call is a `glUniform3fv`. -/
def Call.isUniform3fv : Call → Bool
  | .glUniform3fv _ _ _ => true
  | _ => false

/-- The environment `env` with another clock. -/
def Env.withClock (env : Env) (clock2 : Nat → ℚ) : Env := { env with clock := clock2 }

/-- The value a call uploads to the uniform "iTime" through `SetFloat`, if it does. -/
def Call.iTimeValue : Call → Option CFloat
  | .SetFloat _ name value => if name = "iTime" then some value else none
  | _ => none

/-- The values uploaded to "iTime" by a call sequence, in order. -/
def iTimeUploads (trace : List Call) : List CFloat := trace.filterMap Call.iTimeValue

/-! ## Concrete environments -/

/-- An environment in which everything succeeds: the close flag is first seen
set at the third check, the second poll delivers a resize to 800 x 600, and
the clock advances by a quarter of a second per reading. -/
def demoEnv : Env :=
  { apple := false, createWindow := 1, gladLoad := 1,
    shader := { vertexCompiles := true, fragmentCompiles := true, links := true,
                diagnostic := "", program := 3 },
    genVertexArray := 0, genBuffer := 0,
    uniformLocation := fun _ name =>
      if name = "iTime" then 0 else if name = "iResolution" then 1 else -1,
    clock := fun n => (n : ℚ) / 4,
    shouldClose := fun n => if n < 2 then 0 else 1,
    resizeEvents := fun n => if n = 1 then [(800, 600)] else [] }

/-- The environment `demoEnv` with a window that cannot be created. -/
def noWindowEnv : Env := { demoEnv with createWindow := 0 }

/-- The environment `demoEnv` with a loader that fails. -/
def noGladEnv : Env := { demoEnv with gladLoad := 0 }

/-- The environment `demoEnv` with a fragment shader that does not compile. -/
def badShaderEnv : Env :=
  { demoEnv with
    shader := { vertexCompiles := true, fragmentCompiles := false, links := false,
                diagnostic := "0:1: syntax error", program := 0 } }

/-- The environment `demoEnv` in which the first poll delivers a resize event with a
negative width, `(-5, 7)`. -/
def negativeResizeEnv : Env :=
  { demoEnv with resizeEvents := fun n => if n = 0 then [(-5, 7)] else [] }

/-- The GL state in which `main` enters the render loop in `demoEnv`, from a fresh
context: the viewport is `(0, 0, 640, 640)`. -/
def sceneState : GLState := glRun demoEnv.uniformLocation GLState.init (setupCalls demoEnv)

/-! # Theorems -/

/-! ## Basic facts -/

theorem callback_fold (window : Nat) (events : List (Int × Int)) (w : World) :
    events.foldl (fun w e => framebuffer_size_callback window e.1 e.2 w) w
      = { w with trace := w.trace ++ callbackCalls events } := by
  induction events generalizing w with
  | nil => simp [callbackCalls]
  | cons e es ih =>
    rw [List.foldl_cons, ih]
    simp [callbackCalls, framebuffer_size_callback, glViewport, call]

theorem frame_loopWorld (env : Env) (pre : List Call) (i : Nat) (ls : Locals) :
    (frame env env.createWindow { ID := env.shader.program } (env.genVertexArray + 1)
        (env.genBuffer + 1) ls
        (glfwWindowShouldClose env env.createWindow (loopWorld env pre i)).2).2
      = loopWorld env (pre ++ (.glfwWindowShouldClose env.createWindow :: frameCalls env i))
          (i + 1) := by
  simp only [frame, loopWorld, frameCalls, renderCalls, glfwGetTime, glfwPollEvents,
    callback_fold, glfwWindowShouldClose, glClear, glBindVertexArray, Use, SetFloat, GetID,
    glGetUniformLocation, glUniform3fv, glBindBuffer, glDrawArrays, glfwSwapBuffers, call]
  simp [Nat.mul_add, Nat.add_assoc]

theorem render_loop_closed (env : Env) (pre : List Call) (i fuel : Nat) (ls : Locals)
    (h : env.shouldClose i ≠ 0) :
    render_loop env env.createWindow { ID := env.shader.program } (env.genVertexArray + 1)
        (env.genBuffer + 1) (fuel + 1) ls (loopWorld env pre i)
      = (closedWorld env pre i, .returned 0) := by
  simp [render_loop, glfwWindowShouldClose, loopWorld, closedWorld, call, h]

theorem render_loop_step (env : Env) (pre : List Call) (i fuel : Nat) (ls : Locals)
    (h : env.shouldClose i = 0) :
    ∃ ls1, render_loop env env.createWindow { ID := env.shader.program }
        (env.genVertexArray + 1) (env.genBuffer + 1) (fuel + 1) ls (loopWorld env pre i)
      = render_loop env env.createWindow { ID := env.shader.program }
          (env.genVertexArray + 1) (env.genBuffer + 1) fuel ls1
          (loopWorld env (pre ++ (.glfwWindowShouldClose env.createWindow :: frameCalls env i))
            (i + 1)) := by
  refine ⟨(frame env env.createWindow { ID := env.shader.program } (env.genVertexArray + 1)
        (env.genBuffer + 1) ls
        (glfwWindowShouldClose env env.createWindow (loopWorld env pre i)).2).1, ?_⟩
  rw [← frame_loopWorld env pre i ls]
  have hc : (glfwWindowShouldClose env env.createWindow (loopWorld env pre i)).1 = 0 := by
    simpa [glfwWindowShouldClose, loopWorld] using h
  conv_lhs => rw [render_loop]
  simp [hc]

/-- The shape of every run of the render loop: either the flag is first seen
set at check `i + n`, after `n` frames, and `main` returns 0; or the flag was
clear at all `fuel` checks and `fuel` frames were rendered. -/
theorem render_loop_shape (env : Env) (fuel : Nat) :
    ∀ (i : Nat) (ls : Locals) (pre : List Call),
      (∃ n, n < fuel ∧ (∀ j, j < n → env.shouldClose (i + j) = 0)
          ∧ env.shouldClose (i + n) ≠ 0
          ∧ render_loop env env.createWindow { ID := env.shader.program }
              (env.genVertexArray + 1) (env.genBuffer + 1) fuel ls (loopWorld env pre i)
            = (closedWorld env (pre ++ framesCalls env n i) (i + n), .returned 0))
      ∨ ((∀ j, j < fuel → env.shouldClose (i + j) = 0)
          ∧ render_loop env env.createWindow { ID := env.shader.program }
              (env.genVertexArray + 1) (env.genBuffer + 1) fuel ls (loopWorld env pre i)
            = (loopWorld env (pre ++ framesCalls env fuel i) (i + fuel), .running)) := by
  induction fuel with
  | zero =>
    intro i ls pre
    right
    refine ⟨fun j hj => absurd hj (Nat.not_lt_zero j), ?_⟩
    simp [render_loop, framesCalls]
  | succ fuel ih =>
    intro i ls pre
    by_cases h : env.shouldClose i = 0
    · obtain ⟨ls1, hstep⟩ := render_loop_step env pre i fuel ls h
      rcases ih (i + 1) ls1
          (pre ++ (.glfwWindowShouldClose env.createWindow :: frameCalls env i)) with
        ⟨n, hn, hz, hnz, hrun⟩ | ⟨hz, hrun⟩
      · left
        refine ⟨n + 1, Nat.succ_lt_succ hn, ?_, ?_, ?_⟩
        · intro j hj
          cases j with
          | zero => simpa using h
          | succ j =>
            have := hz j (by omega)
            rwa [show i + (j + 1) = i + 1 + j by omega]
        · rwa [show i + (n + 1) = i + 1 + n by omega]
        · rw [hstep, hrun]
          simp [framesCalls, show i + (n + 1) = i + 1 + n by omega]
      · right
        refine ⟨?_, ?_⟩
        · intro j hj
          cases j with
          | zero => simpa using h
          | succ j =>
            have := hz j (by omega)
            rwa [show i + (j + 1) = i + 1 + j by omega]
        · rw [hstep, hrun]
          simp [framesCalls, show i + (fuel + 1) = i + 1 + fuel by omega]
    · left
      refine ⟨0, Nat.succ_pos fuel, fun j hj => absurd hj (Nat.not_lt_zero j), by simpa using h, ?_⟩
      rw [render_loop_closed env pre i fuel ls h]
      simp [framesCalls]

theorem main_window_fails (env : Env) (fuel : Nat) (h : env.createWindow = 0) :
    main env fuel
      = ({ trace := windowCalls env ++ [.glfwTerminate,
              .fprintf_stderr "fatal error: Failed to create GLFW window\n"],
           clockReads := 0, closeChecks := 0, pollCount := 0, fbSizeCallback := none },
          .returned (-1)) := by
  simp only [main, init_glfw, glfwCreateWindow, glfwInit, glfwWindowHint, glfwTerminate,
    fprintf_stderr, call, World.init, windowCalls, initGlfwCalls, h]
  cases env.apple <;> simp

theorem main_glad_fails (env : Env) (fuel : Nat) (hw : env.createWindow ≠ 0)
    (h : env.gladLoad = 0) :
    main env fuel
      = ({ trace := windowCalls env ++ [.glfwMakeContextCurrent env.createWindow,
              .gladLoadGLLoader, .glfwTerminate,
              .fprintf_stderr "fatal error: Failed to initialize GLAD"],
           clockReads := 0, closeChecks := 0, pollCount := 0, fbSizeCallback := none },
          .returned (-1)) := by
  simp only [main, init_glfw, init_glad, gladLoadGLLoader, glfwCreateWindow, glfwInit,
    glfwWindowHint, glfwTerminate, glfwMakeContextCurrent, fprintf_stderr, call, World.init,
    windowCalls, initGlfwCalls, h, hw]
  cases env.apple <;> simp

theorem main_shader_fails (env : Env) (fuel : Nat) (hw : env.createWindow ≠ 0)
    (hg : env.gladLoad ≠ 0) (h : env.shaderBuilds = false) :
    main env fuel
      = ({ trace := windowCalls env ++ contextCalls env
              ++ [.shaderDiagnostic env.shader.diagnostic],
           clockReads := 0, closeChecks := 0, pollCount := 0,
           fbSizeCallback := some env.createWindow },
          .fatal) := by
  have h1 : (env.shader.vertexCompiles && env.shader.fragmentCompiles && env.shader.links)
      = false := h
  simp only [main, init_glfw, init_glad, gladLoadGLLoader, glfwCreateWindow, glfwInit,
    glfwWindowHint, glfwTerminate, glfwMakeContextCurrent, fprintf_stderr, call, World.init,
    windowCalls, initGlfwCalls, contextCalls, glViewport, glfwSetFramebufferSizeCallback,
    glClearColor, glClear, NewShader, hg, hw, h1]
  cases env.apple <;> simp

theorem main_reaches_loop (env : Env) (fuel : Nat) (hw : env.createWindow ≠ 0)
    (hg : env.gladLoad ≠ 0) (h : env.shaderBuilds = true) :
    main env fuel
      = render_loop env env.createWindow { ID := env.shader.program }
          (env.genVertexArray + 1) (env.genBuffer + 1) fuel (loopLocals env)
          (loopWorld env (setupCalls env) 0) := by
  have h1 : (env.shader.vertexCompiles && env.shader.fragmentCompiles && env.shader.links)
      = true := h
  simp only [main, init_glfw, init_glad, gladLoadGLLoader, glfwCreateWindow, glfwInit,
    glfwWindowHint, glfwTerminate, glfwMakeContextCurrent, fprintf_stderr, call, World.init,
    windowCalls, initGlfwCalls, contextCalls, glViewport, glfwSetFramebufferSizeCallback,
    glClearColor, glClear, NewShader, hg, hw, h1, glGenVertexArrays, glGenBuffers,
    glBindVertexArray, glBindBuffer, glBufferData, glVertexAttribPointer,
    glEnableVertexAttribArray, GetID, glGetUniformLocation, glUniform3fv, glfwGetTime,
    setupCalls, sceneCalls, loopWorld, loopLocals]
  cases env.apple <;> simp

/-- The shape of every run of `main` that reaches the render loop. -/
theorem main_loop_shape (env : Env) (fuel : Nat) (hw : env.createWindow ≠ 0)
    (hg : env.gladLoad ≠ 0) (hs : env.shaderBuilds = true) :
    (∃ n, n < fuel ∧ (∀ j, j < n → env.shouldClose j = 0) ∧ env.shouldClose n ≠ 0
        ∧ main env fuel
          = (closedWorld env (setupCalls env ++ framesCalls env n 0) n, .returned 0))
    ∨ ((∀ j, j < fuel → env.shouldClose j = 0)
        ∧ main env fuel
          = (loopWorld env (setupCalls env ++ framesCalls env fuel 0) fuel, .running)) := by
  rw [main_reaches_loop env fuel hw hg hs]
  simpa using render_loop_shape env fuel 0 (loopLocals env) (setupCalls env)

/-! ## C2: failure of window creation or of the loader -/

/-- C2: if `glfwCreateWindow` returns NULL or `gladLoadGLLoader` returns 0, then `main`
returns -1, `glfwTerminate` has been called, one of the two diagnostic messages has been
written to stderr, and no shader was constructed, no GL object was created, no buffer was
written and no draw call was issued (nor was the close flag ever checked).  Moreover
`init_glad` returns 1 exactly when the loader returns non-zero (and 0 otherwise), and in
that case its only call is `gladLoadGLLoader`: nothing is printed, nothing is terminated. -/
theorem main_init_failure (env : Env) (fuel : Nat)
    (h : env.createWindow = 0 ∨ env.gladLoad = 0) :
    (main env fuel).2 = .returned (-1)
    ∧ Call.glfwTerminate ∈ (main env fuel).1.trace
    ∧ (Call.fprintf_stderr "fatal error: Failed to create GLFW window\n"
          ∈ (main env fuel).1.trace
        ∨ Call.fprintf_stderr "fatal error: Failed to initialize GLAD"
          ∈ (main env fuel).1.trace)
    ∧ (∀ c ∈ (main env fuel).1.trace,
        c.usesShader = false ∧ c.isGen = false ∧ c.isBufferWrite = false
          ∧ c.isUpload = false ∧ c.isDraw = false ∧ c.isCloseCheck = false)
    ∧ (∀ w : World,
        ((init_glad env w).1 = 1 ↔ env.gladLoad ≠ 0)
        ∧ ((init_glad env w).1 = 0 ↔ env.gladLoad = 0)
        ∧ (env.gladLoad ≠ 0 →
            init_glad env w = (1, { w with trace := w.trace ++ [.gladLoadGLLoader] }))
        ∧ (env.gladLoad = 0 →
            init_glad env w = (0, { w with trace := w.trace ++ [.gladLoadGLLoader,
                .glfwTerminate, .fprintf_stderr "fatal error: Failed to initialize GLAD"] }))) := by
  have hinit : ∀ w : World,
      ((init_glad env w).1 = 1 ↔ env.gladLoad ≠ 0)
        ∧ ((init_glad env w).1 = 0 ↔ env.gladLoad = 0)
        ∧ (env.gladLoad ≠ 0 →
            init_glad env w = (1, { w with trace := w.trace ++ [.gladLoadGLLoader] }))
        ∧ (env.gladLoad = 0 →
            init_glad env w = (0, { w with trace := w.trace ++ [.gladLoadGLLoader,
                .glfwTerminate, .fprintf_stderr "fatal error: Failed to initialize GLAD"] })) := by
    intro w
    by_cases hg : env.gladLoad = 0
    · simp [init_glad, gladLoadGLLoader, glfwTerminate, fprintf_stderr, call, hg]
    · simp [init_glad, gladLoadGLLoader, glfwTerminate, fprintf_stderr, call, hg]
  by_cases hw : env.createWindow = 0
  · rw [main_window_fails env fuel hw]
    refine ⟨rfl, by simp, by simp, ?_, hinit⟩
    cases hap : env.apple <;>
      simp [windowCalls, initGlfwCalls, hap, Call.usesShader, Call.isGen, Call.isBufferWrite,
        Call.isUpload, Call.isDraw, Call.isCloseCheck]
  · have hg : env.gladLoad = 0 := h.resolve_left hw
    rw [main_glad_fails env fuel hw hg]
    refine ⟨rfl, by simp, by simp, ?_, hinit⟩
    cases hap : env.apple <;>
      simp [windowCalls, initGlfwCalls, hap, Call.usesShader, Call.isGen, Call.isBufferWrite,
        Call.isUpload, Call.isDraw, Call.isCloseCheck]

/-- Witness of C2: a run in which the loader fails returns -1. -/
theorem main_init_failure_witness :
    (noGladEnv.createWindow = 0 ∨ noGladEnv.gladLoad = 0)
    ∧ (main noGladEnv 5).2 = .returned (-1)
    ∧ Call.glfwTerminate ∈ (main noGladEnv 5).1.trace :=
  ⟨Or.inr rfl, (main_init_failure noGladEnv 5 (Or.inr rfl)).1,
    (main_init_failure noGladEnv 5 (Or.inr rfl)).2.1⟩

/-! ## C1: the resize callback -/

theorem glRun_append (loc : Nat → String → Int) (s : GLState) (xs ys : List Call) :
    glRun loc s (xs ++ ys) = glRun loc (glRun loc s xs) ys := by
  simp [glRun, List.foldl_append]

/-- A `glViewport` call changes at most the viewport. -/
theorem glExec_glViewport_frame (loc : Nat → String → Int) (s : GLState)
    (x y width height : Int) :
    ∃ v, glExec loc s (.glViewport x y width height) = { s with viewport := v } := by
  by_cases h : width < 0 ∨ height < 0
  · exact ⟨s.viewport, by simp [glExec, h]⟩
  · exact ⟨⟨x, y, min width s.maxViewportWidth, min height s.maxViewportHeight⟩, by
      simp [glExec, h]⟩

/-- A `glViewport` call with a negative size is ignored. -/
theorem glExec_glViewport_negative (loc : Nat → String → Int) (s : GLState)
    (x y width height : Int) (h : width < 0 ∨ height < 0) :
    glExec loc s (.glViewport x y width height) = s := by
  simp [glExec, h]

/-- A `glViewport` call with a non-negative size sets the viewport, clamped to the
implementation limit. -/
theorem glExec_glViewport_clamped (loc : Nat → String → Int) (s : GLState)
    (x y width height : Int) (hw : 0 ≤ width) (hh : 0 ≤ height) :
    glExec loc s (.glViewport x y width height)
      = { s with
          viewport := ⟨x, y, min width s.maxViewportWidth, min height s.maxViewportHeight⟩ } := by
  have h : ¬ (width < 0 ∨ height < 0) := by omega
  simp [glExec, h]

/-- A `glViewport` call with a non-negative size within the implementation limit sets
exactly the requested viewport. -/
theorem glExec_glViewport_valid (loc : Nat → String → Int) (s : GLState)
    (x y width height : Int) (hw : 0 ≤ width) (hh : 0 ≤ height)
    (hwm : width ≤ s.maxViewportWidth) (hhm : height ≤ s.maxViewportHeight) :
    glExec loc s (.glViewport x y width height)
      = { s with viewport := ⟨x, y, width, height⟩ } := by
  rw [glExec_glViewport_clamped loc s x y width height hw hh, min_eq_left hwm, min_eq_left hhm]

theorem glExec_maxViewport (loc : Nat → String → Int) (s : GLState) (c : Call) :
    (glExec loc s c).maxViewportWidth = s.maxViewportWidth
      ∧ (glExec loc s c).maxViewportHeight = s.maxViewportHeight := by
  cases c <;> simp only [glExec] <;>
    first
      | exact ⟨trivial, trivial⟩
      | exact ⟨rfl, rfl⟩
      | (split <;> exact ⟨rfl, rfl⟩)
      | (unfold GLState.upload; split <;> exact ⟨rfl, rfl⟩)

theorem glRun_maxViewport (loc : Nat → String → Int) (xs : List Call) :
    ∀ s, (glRun loc s xs).maxViewportWidth = s.maxViewportWidth
      ∧ (glRun loc s xs).maxViewportHeight = s.maxViewportHeight := by
  induction xs with
  | nil => intro s; exact ⟨rfl, rfl⟩
  | cons x xs ih =>
    intro s
    have hx := glExec_maxViewport loc s x
    have := ih (glExec loc s x)
    simpa [glRun, hx.1, hx.2] using this

theorem forall_mem_append_of {α : Type} {P : α → Prop} {xs ys : List α}
    (hx : ∀ c ∈ xs, P c) (hy : ∀ c ∈ ys, P c) : ∀ c ∈ xs ++ ys, P c := by
  intro c hc
  rcases List.mem_append.1 hc with hc | hc
  · exact hx c hc
  · exact hy c hc

theorem windowCalls_no_check (env : Env) :
    ∀ c ∈ windowCalls env, c.isCloseCheck = false := by
  cases hap : env.apple <;> simp [windowCalls, initGlfwCalls, hap, Call.isCloseCheck]

/-- The call sequence of every run of `main` has one of four shapes. -/
theorem main_trace_cases (env : Env) (fuel : Nat) :
    (main env fuel).1.trace = windowCalls env ++ [.glfwTerminate,
        .fprintf_stderr "fatal error: Failed to create GLFW window\n"]
    ∨ (main env fuel).1.trace = windowCalls env ++ [.glfwMakeContextCurrent env.createWindow,
        .gladLoadGLLoader, .glfwTerminate,
        .fprintf_stderr "fatal error: Failed to initialize GLAD"]
    ∨ (main env fuel).1.trace = windowCalls env ++ contextCalls env
        ++ [.shaderDiagnostic env.shader.diagnostic]
    ∨ ∃ n tail, (tail = [] ∨ tail = [.glfwWindowShouldClose env.createWindow])
        ∧ (main env fuel).1.trace = setupCalls env ++ framesCalls env n 0 ++ tail := by
  by_cases hw : env.createWindow = 0
  · left
    rw [main_window_fails env fuel hw]
  by_cases hg : env.gladLoad = 0
  · right; left
    rw [main_glad_fails env fuel hw hg]
  by_cases hs : env.shaderBuilds = true
  · right; right; right
    rcases main_loop_shape env fuel hw hg hs with ⟨n, _, _, _, hrun⟩ | ⟨_, hrun⟩
    · exact ⟨n, [.glfwWindowShouldClose env.createWindow], Or.inr rfl, by rw [hrun]; rfl⟩
    · exact ⟨fuel, [], Or.inl rfl, by rw [hrun]; simp [loopWorld]⟩
  · right; right; left
    rw [main_shader_fails env fuel hw hg (by simpa using hs)]

/-- C1 (amended): for all integers `W`, `H` the callback
`framebuffer_size_callback(window, W, H)` issues the single call `glViewport(0, 0, W, H)`
and touches nothing else of the world, and whatever the GL state was before, every
component of the modelled GL state other than the viewport (bindings, active program,
uniforms, buffer contents, attribute layouts) is as before.  When `W` and `H` are
non-negative and do not exceed `GL_MAX_VIEWPORT_DIMS`, the viewport afterwards is
`(0, 0, W, H)` exactly.  In general a negative `W` or `H` leaves the whole GL state as it
was, and non-negative `W`, `H` give the viewport `(0, 0, min W maxW, min H maxH)`.  In every
run of `main`, the registration of the callback on the window precedes the first check of
the close flag (the start of the render loop). -/
theorem framebuffer_size_callback_sets_viewport (window : Nat) (W H : Int) (w : World)
    (loc : Nat → String → Int) (s : GLState) (env : Env) (fuel : Nat)
    (hW : 0 ≤ W) (hH : 0 ≤ H)
    (hWmax : W ≤ s.maxViewportWidth) (hHmax : H ≤ s.maxViewportHeight) :
    framebuffer_size_callback window W H w
        = { w with trace := w.trace ++ [.glViewport 0 0 W H] }
    ∧ glRun loc s (framebuffer_size_callback window W H World.init).trace
        = { s with viewport := ⟨0, 0, W, H⟩ }
    ∧ glRun loc s (framebuffer_size_callback window W H w).trace
        = { glRun loc s w.trace with viewport := ⟨0, 0, W, H⟩ }
    ∧ (∀ W2 H2 : Int,
        framebuffer_size_callback window W2 H2 w
          = { w with trace := w.trace ++ [.glViewport 0 0 W2 H2] }
        ∧ ∃ v, glRun loc s (framebuffer_size_callback window W2 H2 World.init).trace
            = { s with viewport := v })
    ∧ (∀ W2 H2 : Int, W2 < 0 ∨ H2 < 0 →
        glRun loc s (framebuffer_size_callback window W2 H2 World.init).trace = s)
    ∧ (∀ W2 H2 : Int, 0 ≤ W2 → 0 ≤ H2 →
        glRun loc s (framebuffer_size_callback window W2 H2 World.init).trace
          = { s with
              viewport := ⟨0, 0, min W2 s.maxViewportWidth, min H2 s.maxViewportHeight⟩ })
    ∧ ((∀ c ∈ (main env fuel).1.trace, c.isCloseCheck = false)
        ∨ ∃ front back,
            (main env fuel).1.trace
              = front ++ .glfwSetFramebufferSizeCallback env.createWindow :: back
            ∧ ∀ c ∈ front, c.isCloseCheck = false) := by
  have hinit : ∀ W2 H2 : Int,
      glRun loc s (framebuffer_size_callback window W2 H2 World.init).trace
        = glExec loc s (.glViewport 0 0 W2 H2) := by
    intro W2 H2
    simp [framebuffer_size_callback, glViewport, call, World.init, glRun]
  refine ⟨rfl, ?_, ?_, ?_, ?_, ?_, ?_⟩
  · rw [hinit, glExec_glViewport_valid loc s 0 0 W H hW hH hWmax hHmax]
  · have hm := glRun_maxViewport loc w.trace s
    have : glRun loc s (framebuffer_size_callback window W H w).trace
        = glExec loc (glRun loc s w.trace) (.glViewport 0 0 W H) := by
      simp [framebuffer_size_callback, glViewport, call, glRun, List.foldl_append]
    rw [this, glExec_glViewport_valid loc _ 0 0 W H hW hH (by rw [hm.1]; exact hWmax)
      (by rw [hm.2]; exact hHmax)]
  · intro W2 H2
    refine ⟨rfl, ?_⟩
    rw [hinit]
    exact glExec_glViewport_frame loc s 0 0 W2 H2
  · intro W2 H2 hneg
    rw [hinit, glExec_glViewport_negative loc s 0 0 W2 H2 hneg]
  · intro W2 H2 h1 h2
    rw [hinit, glExec_glViewport_clamped loc s 0 0 W2 H2 h1 h2]
  · rcases main_trace_cases env fuel with h | h | h | ⟨n, tail, _, h⟩
    · left
      rw [h]
      exact forall_mem_append_of (windowCalls_no_check env) (by simp [Call.isCloseCheck])
    · left
      rw [h]
      exact forall_mem_append_of (windowCalls_no_check env) (by simp [Call.isCloseCheck])
    · left
      rw [h]
      exact forall_mem_append_of
        (forall_mem_append_of (windowCalls_no_check env)
          (by simp [contextCalls, Call.isCloseCheck]))
        (by simp [Call.isCloseCheck])
    · right
      refine ⟨windowCalls env ++ [.glfwMakeContextCurrent env.createWindow, .gladLoadGLLoader,
          .glViewport 0 0 SCREEN_WIDTH SCREEN_HEIGHT],
        [.glClearColor 0 0 0 1, .glClear .GL_COLOR_BUFFER_BIT,
          .NewShader "Shaders/vertex.vert" "Shaders/fragment.frag"]
          ++ sceneCalls env ++ framesCalls env n 0 ++ tail, ?_, ?_⟩
      · rw [h]
        simp [setupCalls, contextCalls]
      · exact forall_mem_append_of (windowCalls_no_check env) (by simp [Call.isCloseCheck])

/-- Witness of C1 (amended): a resize to 800 x 600 on a fresh context. -/
theorem framebuffer_size_callback_sets_viewport_witness :
    glRun demoEnv.uniformLocation GLState.init
        (framebuffer_size_callback 1 800 600 World.init).trace
      = { GLState.init with viewport := ⟨0, 0, 800, 600⟩ } :=
  (framebuffer_size_callback_sets_viewport 1 800 600 World.init demoEnv.uniformLocation
    GLState.init demoEnv 5 (by decide) (by decide) (by decide) (by decide)).2.1

theorem sceneState_viewport :
    sceneState.viewport = ⟨0, 0, 640, 640⟩
      ∧ sceneState.maxViewportWidth = 16384 ∧ sceneState.maxViewportHeight = 16384 := by
  decide

/-- Counterexample to C1 as stated: in the GL state in which `main` enters the render loop
(viewport `(0, 0, 640, 640)`, limit 16384 x 16384), the callback with `(W, H) = (-5, 7)`
leaves the viewport at `(0, 0, 640, 640)`, not `(0, 0, -5, 7)`; and with
`(W, H) = (20000, 7)` the viewport becomes `(0, 0, 16384, 7)`, not `(0, 0, 20000, 7)`. -/
theorem framebuffer_size_callback_viewport_not_always_set :
    (glRun demoEnv.uniformLocation sceneState
        (framebuffer_size_callback 1 (-5) 7 World.init).trace).viewport = ⟨0, 0, 640, 640⟩
    ∧ (glRun demoEnv.uniformLocation sceneState
        (framebuffer_size_callback 1 (-5) 7 World.init).trace).viewport ≠ ⟨0, 0, -5, 7⟩
    ∧ (glRun demoEnv.uniformLocation sceneState
        (framebuffer_size_callback 1 20000 7 World.init).trace).viewport = ⟨0, 0, 16384, 7⟩
    ∧ (glRun demoEnv.uniformLocation sceneState
        (framebuffer_size_callback 1 20000 7 World.init).trace).viewport ≠ ⟨0, 0, 20000, 7⟩ := by
  obtain ⟨hv, hmw, hmh⟩ := sceneState_viewport
  have h1 : (glRun demoEnv.uniformLocation sceneState
      (framebuffer_size_callback 1 (-5) 7 World.init).trace).viewport = ⟨0, 0, 640, 640⟩ := by
    simp [framebuffer_size_callback, glViewport, call, World.init, glRun, glExec, hv]
  have h2 : (glRun demoEnv.uniformLocation sceneState
      (framebuffer_size_callback 1 20000 7 World.init).trace).viewport
        = ⟨0, 0, 16384, 7⟩ := by
    simp [framebuffer_size_callback, glViewport, call, World.init, glRun, glExec, hmw, hmh]
  refine ⟨h1, ?_, h2, ?_⟩
  · rw [h1]; decide
  · rw [h2]; decide

/-! ## C3: failure of the shader construction -/

/-- C3 (against `NewShader` as the spec describes it): when a stage fails to compile or
the program fails to link, `NewShader` returns no handle, and in every run of `main` no
draw call is issued, no shader handle reaches `GetID`, `Use` or `SetFloat`, no uniform
is uploaded and the close flag is never checked (the render loop is not entered); if the
window and the loader were fine, the run ends as a fatal termination inside `NewShader`,
right after the diagnostic text was reported. -/
theorem main_shader_failure (env : Env) (fuel : Nat) (w : World)
    (h : env.shaderBuilds = false) :
    (NewShader env "Shaders/vertex.vert" "Shaders/fragment.frag" w).1 = none
    ∧ (main env fuel).2 ≠ .running
    ∧ (∀ c ∈ (main env fuel).1.trace,
        c.isDraw = false ∧ c.usesHandle = false ∧ c.isUpload = false
          ∧ c.isCloseCheck = false)
    ∧ (env.createWindow ≠ 0 → env.gladLoad ≠ 0 →
        (main env fuel).2 = .fatal
        ∧ (main env fuel).1.trace = windowCalls env ++ contextCalls env
            ++ [.shaderDiagnostic env.shader.diagnostic]) := by
  have h1 : (env.shader.vertexCompiles && env.shader.fragmentCompiles && env.shader.links)
      = false := h
  refine ⟨by simp only [NewShader, h1]; simp, ?_, ?_, ?_⟩
  · by_cases hw : env.createWindow = 0
    · rw [main_window_fails env fuel hw]; simp
    by_cases hg : env.gladLoad = 0
    · rw [main_glad_fails env fuel hw hg]; simp
    · rw [main_shader_fails env fuel hw hg h]; simp
  · by_cases hw : env.createWindow = 0
    · rw [main_window_fails env fuel hw]
      cases hap : env.apple <;>
        simp [windowCalls, initGlfwCalls, hap, Call.usesHandle, Call.isUpload, Call.isDraw,
          Call.isCloseCheck]
    by_cases hg : env.gladLoad = 0
    · rw [main_glad_fails env fuel hw hg]
      cases hap : env.apple <;>
        simp [windowCalls, initGlfwCalls, hap, Call.usesHandle, Call.isUpload, Call.isDraw,
          Call.isCloseCheck]
    · rw [main_shader_fails env fuel hw hg h]
      cases hap : env.apple <;>
        simp [windowCalls, initGlfwCalls, contextCalls, hap, Call.usesHandle, Call.isUpload,
          Call.isDraw, Call.isCloseCheck]
  · intro hw hg
    rw [main_shader_fails env fuel hw hg h]
    exact ⟨rfl, rfl⟩

/-- Witness of C3: with a fragment shader that does not compile the run ends fatally. -/
theorem main_shader_failure_witness :
    badShaderEnv.shaderBuilds = false ∧ (main badShaderEnv 5).2 = .fatal :=
  ⟨rfl, ((main_shader_failure badShaderEnv 5 World.init rfl).2.2.2 (by decide) (by decide)).1⟩

/-! ## C4: the render loop and the close flag -/

theorem callbackCalls_countP (p : Call → Bool)
    (hp : ∀ x y width height, p (.glViewport x y width height) = false)
    (events : List (Int × Int)) : (callbackCalls events).countP p = 0 := by
  induction events with
  | nil => rfl
  | cons e es ih =>
    have : callbackCalls (e :: es) = .glViewport 0 0 e.1 e.2 :: callbackCalls es := rfl
    rw [this, List.countP_cons_of_neg]
    · exact ih
    · simp [hp]

theorem frameCalls_countP_isDraw (env : Env) (i : Nat) :
    (frameCalls env i).countP Call.isDraw = 1 := by
  simp [frameCalls, renderCalls, List.countP_append, List.countP_cons,
    callbackCalls_countP Call.isDraw (fun _ _ _ _ => rfl), Call.isDraw]

theorem frameCalls_countP_isSwap (env : Env) (i : Nat) :
    (frameCalls env i).countP Call.isSwap = 1 := by
  simp [frameCalls, renderCalls, List.countP_append, List.countP_cons,
    callbackCalls_countP Call.isSwap (fun _ _ _ _ => rfl), Call.isSwap]

theorem frameCalls_countP_isCloseCheck (env : Env) (i : Nat) :
    (frameCalls env i).countP Call.isCloseCheck = 0 := by
  simp [frameCalls, renderCalls, List.countP_append, List.countP_cons,
    callbackCalls_countP Call.isCloseCheck (fun _ _ _ _ => rfl), Call.isCloseCheck]

theorem framesCalls_countP (env : Env) (n : Nat) :
    ∀ i, (framesCalls env n i).countP Call.isDraw = n
      ∧ (framesCalls env n i).countP Call.isSwap = n
      ∧ (framesCalls env n i).countP Call.isCloseCheck = n := by
  induction n with
  | zero => intro i; simp [framesCalls]
  | succ n ih =>
    intro i
    obtain ⟨h1, h2, h3⟩ := ih (i + 1)
    simp only [framesCalls, List.cons_append, List.countP_cons, List.countP_append, h1, h2, h3,
      frameCalls_countP_isDraw, frameCalls_countP_isSwap, frameCalls_countP_isCloseCheck]
    simp [Call.isDraw, Call.isSwap, Call.isCloseCheck, Nat.add_comm]

theorem setupCalls_countP (env : Env) :
    (setupCalls env).countP Call.isDraw = 0
      ∧ (setupCalls env).countP Call.isSwap = 0
      ∧ (setupCalls env).countP Call.isCloseCheck = 0 := by
  cases hap : env.apple <;>
    simp [setupCalls, windowCalls, initGlfwCalls, contextCalls, sceneCalls, hap,
      List.countP_cons, Call.isDraw, Call.isSwap, Call.isCloseCheck]

/-- C4: in a run whose initialization succeeds, if the close flag is clear at the first
`k - 1` checks and set at check number `k` (`k ≥ 1`), then with enough fuel (`fuel ≥ k`)
`main` returns 0 and its calls are exactly: the setup, then `k - 1` times (one close-flag
check followed by the calls of one frame), then the `k`-th check, which is the last call.
So there are exactly `k - 1` draw calls, `k - 1` buffer swaps and `k` close-flag checks
(none of them inside a frame), and no call at all follows the `k`-th check. -/
theorem main_renders_until_close (env : Env) (fuel k : Nat)
    (hw : env.createWindow ≠ 0) (hg : env.gladLoad ≠ 0) (hs : env.shaderBuilds = true)
    (hk : 1 ≤ k) (hclear : ∀ j, j + 1 < k → env.shouldClose j = 0)
    (hset : env.shouldClose (k - 1) ≠ 0) (hfuel : k ≤ fuel) :
    (main env fuel).2 = .returned 0
    ∧ (main env fuel).1.trace
        = setupCalls env ++ framesCalls env (k - 1) 0
            ++ [.glfwWindowShouldClose env.createWindow]
    ∧ (main env fuel).1.trace.countP Call.isDraw = k - 1
    ∧ (main env fuel).1.trace.countP Call.isSwap = k - 1
    ∧ (main env fuel).1.trace.countP Call.isCloseCheck = k
    ∧ (main env fuel).1.closeChecks = k
    ∧ (main env fuel).1.trace.getLast? = some (.glfwWindowShouldClose env.createWindow)
    ∧ (∀ i, (frameCalls env i).countP Call.isCloseCheck = 0
          ∧ (frameCalls env i).countP Call.isDraw = 1
          ∧ (frameCalls env i).countP Call.isSwap = 1) := by
  have hrun : main env fuel
      = (closedWorld env (setupCalls env ++ framesCalls env (k - 1) 0) (k - 1),
          .returned 0) := by
    rcases main_loop_shape env fuel hw hg hs with ⟨n, _, hz, hnz, hrun⟩ | ⟨hz, _⟩
    · have hn : n = k - 1 := by
        rcases Nat.lt_trichotomy n (k - 1) with hlt | heq | hgt
        · exact absurd (hclear n (by omega)) hnz
        · exact heq
        · exact absurd (hz (k - 1) hgt) hset
      rw [hrun, hn]
    · exact absurd (hz (k - 1) (by omega)) hset
  obtain ⟨s1, s2, s3⟩ := setupCalls_countP env
  obtain ⟨f1, f2, f3⟩ := framesCalls_countP env (k - 1) 0
  rw [hrun]
  refine ⟨rfl, rfl, ?_, ?_, ?_, ?_, ?_, ?_⟩
  · simp [closedWorld, List.countP_append, s1, f1, Call.isDraw]
  · simp [closedWorld, List.countP_append, s2, f2, Call.isSwap]
  · simp only [closedWorld, List.countP_append, s3, f3]
    simp [Call.isCloseCheck]
    omega
  · simp only [closedWorld]
    omega
  · simp [closedWorld]
  · intro i
    exact ⟨frameCalls_countP_isCloseCheck env i, frameCalls_countP_isDraw env i,
      frameCalls_countP_isSwap env i⟩

/-- Witness of C4: in `demoEnv` the flag is first set at the third check, so two frames
are drawn and `main` returns 0. -/
theorem main_renders_until_close_witness :
    (main demoEnv 5).2 = .returned 0
    ∧ (main demoEnv 5).1.trace.countP Call.isDraw = 2 :=
  ⟨(main_renders_until_close demoEnv 5 3 (by decide) (by decide) rfl (by decide)
      (by intro j hj; have : j < 2 := by omega
          simp [demoEnv, this]) (by decide) (by decide)).1,
   (main_renders_until_close demoEnv 5 3 (by decide) (by decide) rfl (by decide)
      (by intro j hj; have : j < 2 := by omega
          simp [demoEnv, this]) (by decide) (by decide)).2.2.1⟩

/-! ## C5: what a frame does, and the state in which it draws -/

theorem drawStates_append (loc : Nat → String → Int) (xs ys : List Call) :
    ∀ s, glDrawStates loc s (xs ++ ys)
      = glDrawStates loc s xs ++ glDrawStates loc (glRun loc s xs) ys := by
  induction xs with
  | nil => intro s; simp [glDrawStates, glRun]
  | cons x xs ih =>
    intro s
    by_cases hx : x.isDraw = true
    · simp [glDrawStates, glRun, hx, ih (glExec loc s x)]
    · simp [glDrawStates, glRun, hx, ih (glExec loc s x)]

theorem drawStates_of_no_draw (loc : Nat → String → Int) (xs : List Call)
    (h : ∀ c ∈ xs, c.isDraw = false) : ∀ s, glDrawStates loc s xs = [] := by
  induction xs with
  | nil => intro s; rfl
  | cons x xs ih =>
    intro s
    have hx : x.isDraw = false := h x (List.mem_cons_self x xs)
    simp [glDrawStates, hx, ih (fun c hc => h c (List.mem_cons_of_mem x hc))]

theorem drawStates_length (loc : Nat → String → Int) (xs : List Call) :
    ∀ s, (glDrawStates loc s xs).length = xs.countP Call.isDraw := by
  induction xs with
  | nil => intro s; rfl
  | cons x xs ih =>
    intro s
    by_cases hx : x.isDraw = true
    · simp [glDrawStates, hx, ih (glExec loc s x)]
    · simp [glDrawStates, hx, ih (glExec loc s x)]

theorem callbackCalls_no_draw (events : List (Int × Int)) :
    ∀ c ∈ callbackCalls events, c.isDraw = false := by
  intro c hc
  simp only [callbackCalls, List.mem_map] at hc
  obtain ⟨e, _, rfl⟩ := hc
  rfl

theorem upload_fields (s : GLState) (location : Int) (v : UniformValue) :
    (s.upload location v).currentProgram = s.currentProgram
    ∧ (s.upload location v).vertexArrayBinding = s.vertexArrayBinding
    ∧ (s.upload location v).arrayBufferBinding = s.arrayBufferBinding
    ∧ (s.upload location v).viewport = s.viewport
    ∧ (s.upload location v).buffers = s.buffers
    ∧ (s.upload location v).attribs = s.attribs
    ∧ (s.upload location v).attribEnabled = s.attribEnabled
    ∧ (s.upload location v).clearColor = s.clearColor := by
  unfold GLState.upload
  split <;> simp

theorem upload_uniforms (s : GLState) (location : Int) (v : UniformValue)
    (hp : s.currentProgram ≠ 0) (hl : location ≠ -1) :
    (s.upload location v).uniforms
      = Function.update s.uniforms s.currentProgram
          (Function.update (s.uniforms s.currentProgram) location (some v)) := by
  simp [GLState.upload, hp, hl]

theorem renderCalls_drawStates (env : Env) (c : Nat) (s : GLState) :
    ∃ sD, glDrawStates env.uniformLocation s (renderCalls env c) = [sD]
      ∧ DrawReady env sD ∧ TimeIs env (doubleToFloat (env.clock c)) sD
      ∧ sD.viewport = s.viewport := by
  refine ⟨_, rfl, ?_, ?_, ?_⟩
  · refine ⟨?_, ?_, ?_, ?_⟩
    · simp [glExec, (upload_fields _ _ _).1]
    · simp [glExec, (upload_fields _ _ _).2.1]
    · simp [glExec]
    · intro hp hl
      simp [glExec, upload_uniforms, (upload_fields _ _ _).1, hp, hl]
  · intro hp ht hne
    by_cases hl : env.uniformLocation env.shader.program "iResolution" = -1
    · simp [glExec, GLState.upload, hp, hl, ht]
    · simp [glExec, GLState.upload, hp, hl, ht, Function.update_noteq hne]
  · simp [glExec, (upload_fields _ _ _).2.2.2.1]

theorem frameCalls_drawStates (env : Env) (i : Nat) (s : GLState) :
    ∃ sD, glDrawStates env.uniformLocation s (frameCalls env i) = [sD]
      ∧ DrawReady env sD ∧ TimeIs env (doubleToFloat (env.clock (2 * i + 2))) sD := by
  obtain ⟨sD, h1, h2, h3, _⟩ := renderCalls_drawStates env (2 * i + 2)
    (glRun env.uniformLocation
      (glRun env.uniformLocation s [.glfwGetTime, .glfwPollEvents])
      (callbackCalls (env.resizeEvents i)))
  refine ⟨sD, ?_, h2, h3⟩
  rw [frameCalls, drawStates_append, drawStates_append, glRun_append, h1,
    drawStates_of_no_draw _ _ (callbackCalls_no_draw _)]
  simp [glDrawStates, Call.isDraw]

theorem framesCalls_drawStates (env : Env) (n : Nat) :
    ∀ i s, ∀ sD ∈ glDrawStates env.uniformLocation s (framesCalls env n i),
      DrawReady env sD := by
  induction n with
  | zero => intro i s sD h; simp [framesCalls, glDrawStates] at h
  | succ n ih =>
    intro i s sD h
    rw [framesCalls, drawStates_append] at h
    rcases List.mem_append.1 h with h | h
    · obtain ⟨sF, hF, hready, _⟩ := frameCalls_drawStates env i
        (glExec env.uniformLocation s (.glfwWindowShouldClose env.createWindow))
      have hcons : glDrawStates env.uniformLocation s
          (.glfwWindowShouldClose env.createWindow :: frameCalls env i) = [sF] := by
        rw [← hF]; simp [glDrawStates, Call.isDraw]
      rw [hcons] at h
      rw [List.mem_singleton.1 h]
      exact hready
    · exact ih _ _ sD h

theorem setupCalls_no_draw (env : Env) : ∀ c ∈ setupCalls env, c.isDraw = false := by
  cases hap : env.apple <;>
    simp [setupCalls, windowCalls, initGlfwCalls, contextCalls, sceneCalls, hap, Call.isDraw]

/-- In every run, every draw call is issued in a state that is ready for it. -/
theorem main_drawStates (env : Env) (fuel : Nat) (s : GLState) :
    ∀ sD ∈ glDrawStates env.uniformLocation s (main env fuel).1.trace, DrawReady env sD := by
  intro sD h
  rcases main_trace_cases env fuel with ht | ht | ht | ⟨n, tail, htail, ht⟩
  · rw [ht, drawStates_of_no_draw] at h
    · simp at h
    · cases hap : env.apple <;> simp [windowCalls, initGlfwCalls, hap, Call.isDraw]
  · rw [ht, drawStates_of_no_draw] at h
    · simp at h
    · cases hap : env.apple <;> simp [windowCalls, initGlfwCalls, hap, Call.isDraw]
  · rw [ht, drawStates_of_no_draw] at h
    · simp at h
    · cases hap : env.apple <;>
        simp [windowCalls, initGlfwCalls, contextCalls, hap, Call.isDraw]
  · rw [ht, drawStates_append, drawStates_append,
      drawStates_of_no_draw _ _ (setupCalls_no_draw env)] at h
    have htl : ∀ t, glDrawStates env.uniformLocation t tail = [] := by
      intro t
      rcases htail with rfl | rfl <;> simp [glDrawStates, Call.isDraw]
    rw [htl] at h
    simp only [List.nil_append, List.append_nil] at h
    exact framesCalls_drawStates env n 0 _ sD h

/-- C5: iteration `i` of the render loop (the close-flag check found the flag clear) adds
exactly the calls `frameCalls env i` to the run, and these are, in order: `glfwGetTime`,
`glfwPollEvents` (with the `glViewport` calls of the resize callback for the delivered
events), `glClear(GL_COLOR_BUFFER_BIT)`, `glBindVertexArray(vao)`, `Use(shader)`,
`glfwGetTime`, `SetFloat(shader, "iTime", ·)`, `GetID`, `glGetUniformLocation`,
`glUniform3fv(·, 1, resolution)`, `glBindBuffer(GL_ARRAY_BUFFER, vbo)`,
`glDrawArrays(GL_TRIANGLES, 0, 6)`, `glBindVertexArray(0)`, `glfwSwapBuffers(window)`.
Leaving aside the queries (clock, handle, uniform location) and the viewport updates of the
callback, that is: poll events, clear, bind VAO, `Use`, upload "iTime", upload
"iResolution", bind VBO, draw, unbind VAO, swap.
The only draw call among them is `glDrawArrays(GL_TRIANGLES, 0, 6)`; whatever the GL state at
the start of the frame, it is issued in a state where the shader program is active, the
vertex array and the vertex buffer are bound and both uniforms hold the values uploaded in
this frame; after the frame no vertex array is bound.  In every run of `main`, every draw
call is issued in such a state. -/
theorem frame_draws_once_when_ready (env : Env) (fuel i : Nat) (pre : List Call)
    (ls : Locals) (s : GLState) :
    (frame env env.createWindow { ID := env.shader.program } (env.genVertexArray + 1)
        (env.genBuffer + 1) ls
        (glfwWindowShouldClose env env.createWindow (loopWorld env pre i)).2).2
      = loopWorld env (pre ++ (.glfwWindowShouldClose env.createWindow :: frameCalls env i))
          (i + 1)
    ∧ frameCalls env i
      = [.glfwGetTime, .glfwPollEvents]
        ++ (env.resizeEvents i).map (fun e => Call.glViewport 0 0 e.1 e.2)
        ++ [.glClear .GL_COLOR_BUFFER_BIT,
            .glBindVertexArray (env.genVertexArray + 1),
            .Use { ID := env.shader.program },
            .glfwGetTime,
            .SetFloat { ID := env.shader.program } "iTime"
              (doubleToFloat (env.clock (2 * i + 2))),
            .GetID { ID := env.shader.program },
            .glGetUniformLocation env.shader.program "iResolution",
            .glUniform3fv (env.uniformLocation env.shader.program "iResolution") 1
              [640, 640, 1],
            .glBindBuffer .GL_ARRAY_BUFFER (env.genBuffer + 1),
            .glDrawArrays .GL_TRIANGLES 0 6,
            .glBindVertexArray 0,
            .glfwSwapBuffers env.createWindow]
    ∧ (frameCalls env i).filter (fun c => !c.isQuery && !c.isViewport)
      = [.glfwPollEvents,
         .glClear .GL_COLOR_BUFFER_BIT,
         .glBindVertexArray (env.genVertexArray + 1),
         .Use { ID := env.shader.program },
         .SetFloat { ID := env.shader.program } "iTime"
           (doubleToFloat (env.clock (2 * i + 2))),
         .glUniform3fv (env.uniformLocation env.shader.program "iResolution") 1
           [640, 640, 1],
         .glBindBuffer .GL_ARRAY_BUFFER (env.genBuffer + 1),
         .glDrawArrays .GL_TRIANGLES 0 6,
         .glBindVertexArray 0,
         .glfwSwapBuffers env.createWindow]
    ∧ (frameCalls env i).filter Call.isDraw = [.glDrawArrays .GL_TRIANGLES 0 6]
    ∧ (∃ sD, glDrawStates env.uniformLocation s (frameCalls env i) = [sD]
        ∧ DrawReady env sD ∧ TimeIs env (doubleToFloat (env.clock (2 * i + 2))) sD)
    ∧ (glRun env.uniformLocation s (frameCalls env i)).vertexArrayBinding = 0
    ∧ (∀ sD ∈ glDrawStates env.uniformLocation s (main env fuel).1.trace, DrawReady env sD)
    ∧ (glDrawStates env.uniformLocation s (main env fuel).1.trace).length
        = (main env fuel).1.trace.countP Call.isDraw := by
  refine ⟨frame_loopWorld env pre i ls, ?_, ?_, ?_, frameCalls_drawStates env i s, ?_,
    main_drawStates env fuel s, drawStates_length _ _ _⟩
  · simp [frameCalls, renderCalls, callbackCalls, resolution, SCREEN_WIDTH, SCREEN_HEIGHT]
  · rw [frameCalls, List.filter_append, List.filter_append]
    have : (callbackCalls (env.resizeEvents i)).filter
        (fun c => !c.isQuery && !c.isViewport) = [] := by
      rw [List.filter_eq_nil_iff]
      intro c hc
      simp only [callbackCalls, List.mem_map] at hc
      obtain ⟨e, _, rfl⟩ := hc
      simp [Call.isViewport]
    rw [this]
    simp [renderCalls, List.filter, Call.isQuery, Call.isViewport, resolution, SCREEN_WIDTH,
      SCREEN_HEIGHT]
  · rw [frameCalls, List.filter_append, List.filter_append]
    have : (callbackCalls (env.resizeEvents i)).filter Call.isDraw = [] := by
      rw [List.filter_eq_nil_iff]
      intro c hc
      simp [callbackCalls_no_draw _ c hc]
    rw [this]
    simp [renderCalls, List.filter, Call.isDraw]
  · rw [frameCalls, glRun_append]
    simp [renderCalls, glRun, glExec]

/-! ## C7: the vertex buffer is written once and never again -/

theorem glExec_buffers (loc : Nat → String → Int) (s : GLState) (c : Call)
    (h : c.isBufferWrite = false) : (glExec loc s c).buffers = s.buffers := by
  cases c <;> simp [Call.isBufferWrite] at h <;>
    simp [glExec, (upload_fields _ _ _).2.2.2.2.1] <;> (split <;> rfl)

theorem glExec_attribs (loc : Nat → String → Int) (s : GLState) (c : Call)
    (h : c.isLayoutWrite = false) :
    (glExec loc s c).attribs = s.attribs
      ∧ (glExec loc s c).attribEnabled = s.attribEnabled := by
  cases c <;> simp [Call.isLayoutWrite] at h <;>
    simp only [glExec, (upload_fields _ _ _).2.2.2.2.2.1,
      (upload_fields _ _ _).2.2.2.2.2.2.1] <;>
    first
      | exact ⟨trivial, trivial⟩
      | exact ⟨rfl, rfl⟩
      | (split <;> exact ⟨rfl, rfl⟩)

theorem glRun_buffers (loc : Nat → String → Int) (xs : List Call)
    (h : ∀ c ∈ xs, c.isBufferWrite = false) :
    ∀ s, (glRun loc s xs).buffers = s.buffers := by
  induction xs with
  | nil => intro s; rfl
  | cons x xs ih =>
    intro s
    have hx := glExec_buffers loc s x (h x (List.mem_cons_self x xs))
    have := ih (fun c hc => h c (List.mem_cons_of_mem x hc)) (glExec loc s x)
    simpa [glRun, hx] using this

theorem glRun_attribs (loc : Nat → String → Int) (xs : List Call)
    (h : ∀ c ∈ xs, c.isLayoutWrite = false) :
    ∀ s, (glRun loc s xs).attribs = s.attribs
      ∧ (glRun loc s xs).attribEnabled = s.attribEnabled := by
  induction xs with
  | nil => intro s; exact ⟨rfl, rfl⟩
  | cons x xs ih =>
    intro s
    have hx := glExec_attribs loc s x (h x (List.mem_cons_self x xs))
    have := ih (fun c hc => h c (List.mem_cons_of_mem x hc)) (glExec loc s x)
    simpa [glRun, hx.1, hx.2] using this

/-- No call of a frame writes a buffer or a vertex attribute layout. -/
theorem frameCalls_no_write (env : Env) (i : Nat) :
    ∀ c ∈ frameCalls env i, c.isBufferWrite = false ∧ c.isLayoutWrite = false := by
  intro c hc
  simp only [frameCalls, List.mem_append] at hc
  rcases hc with (hc | hc) | hc
  · revert hc; revert c; simp [Call.isBufferWrite, Call.isLayoutWrite]
  · simp only [callbackCalls, List.mem_map] at hc
    obtain ⟨e, _, rfl⟩ := hc
    exact ⟨rfl, rfl⟩
  · revert hc; revert c; simp [renderCalls, Call.isBufferWrite, Call.isLayoutWrite]

theorem framesCalls_no_write (env : Env) (n : Nat) :
    ∀ i, ∀ c ∈ framesCalls env n i, c.isBufferWrite = false ∧ c.isLayoutWrite = false := by
  induction n with
  | zero => intro i c hc; simp [framesCalls] at hc
  | succ n ih =>
    intro i c hc
    simp only [framesCalls, List.cons_append, List.mem_cons, List.mem_append] at hc
    rcases hc with rfl | hc | hc
    · exact ⟨rfl, rfl⟩
    · exact frameCalls_no_write env i c hc
    · exact ih (i + 1) c hc

theorem setupCalls_scene (env : Env) (s : GLState) :
    SceneIntact env (glRun env.uniformLocation s (setupCalls env)) := by
  rw [setupCalls, glRun_append]
  generalize glRun env.uniformLocation s (windowCalls env ++ contextCalls env) = t
  refine ⟨?_, ?_, ?_⟩
  · simp [sceneCalls, glRun, glExec, (upload_fields _ _ _).2.2.2.2.1, vertexBufferObject]
  · simp [sceneCalls, glRun, glExec, (upload_fields _ _ _).2.2.2.2.2.1, positionLayout]
  · simp [sceneCalls, glRun, glExec, (upload_fields _ _ _).2.2.2.2.2.2.1]

theorem setupCalls_writes (env : Env) :
    (setupCalls env).filter Call.isBufferWrite
      = [.glBufferData .GL_ARRAY_BUFFER sizeof_vertices vertices .GL_STATIC_DRAW] := by
  cases hap : env.apple <;>
    simp [setupCalls, windowCalls, initGlfwCalls, contextCalls, sceneCalls, hap, List.filter,
      Call.isBufferWrite]

theorem setupCalls_layout_writes (env : Env) :
    (setupCalls env).filter Call.isLayoutWrite
      = [.glVertexAttribPointer 0 2 .GL_FLOAT .GL_FALSE (2 * sizeof_float) 0,
         .glEnableVertexAttribArray 0] := by
  cases hap : env.apple <;>
    simp [setupCalls, windowCalls, initGlfwCalls, contextCalls, sceneCalls, hap, List.filter,
      Call.isLayoutWrite]

/-- The call sequence of a run that reaches the render loop. -/
theorem main_trace_loop (env : Env) (fuel : Nat) (hw : env.createWindow ≠ 0)
    (hg : env.gladLoad ≠ 0) (hs : env.shaderBuilds = true) :
    ∃ n tail, (tail = [] ∨ tail = [.glfwWindowShouldClose env.createWindow])
      ∧ (main env fuel).1.trace = setupCalls env ++ (framesCalls env n 0 ++ tail) := by
  rcases main_loop_shape env fuel hw hg hs with ⟨n, _, _, _, hrun⟩ | ⟨_, hrun⟩
  · exact ⟨n, [.glfwWindowShouldClose env.createWindow], Or.inr rfl, by
      rw [hrun]; simp [closedWorld]⟩
  · exact ⟨fuel, [], Or.inl rfl, by rw [hrun]; simp [loopWorld]⟩

theorem loop_calls_no_write (env : Env) (n : Nat) (tail : List Call)
    (htail : tail = [] ∨ tail = [.glfwWindowShouldClose env.createWindow]) :
    ∀ c ∈ framesCalls env n 0 ++ tail, c.isBufferWrite = false ∧ c.isLayoutWrite = false := by
  apply forall_mem_append_of (framesCalls_no_write env n 0)
  rcases htail with rfl | rfl <;> simp [Call.isBufferWrite, Call.isLayoutWrite]

/-- C7: in a run that reaches the render loop, the only buffer write of the whole run is the
one `glBufferData(GL_ARRAY_BUFFER, sizeof(vertices), vertices, GL_STATIC_DRAW)` of the setup
(12 floats, 48 bytes), and the only attribute-layout calls are the two of the setup.  At
every later moment of the run (`p` is any initial part of the call sequence that contains
the setup, so in particular after each frame and after each resize callback, for any number
of frames and any delivered resize events) the vertex buffer holds exactly `vertices` and the
vertex array records attribute 0 as 2 floats, stride `2 * sizeof(float)`, offset 0, enabled.
No call of a frame and no call of the resize callback writes a buffer or a layout, so each
of them leaves all buffer contents and layouts as it found them. -/
theorem vertex_buffer_never_rewritten (env : Env) (fuel i : Nat) (s : GLState)
    (window : Nat) (W H : Int) (p : List Call)
    (hw : env.createWindow ≠ 0) (hg : env.gladLoad ≠ 0) (hs : env.shaderBuilds = true)
    (hp1 : setupCalls env <+: p) (hp2 : p <+: (main env fuel).1.trace) :
    SceneIntact env (glRun env.uniformLocation s p)
    ∧ (main env fuel).1.trace.filter Call.isBufferWrite
        = [.glBufferData .GL_ARRAY_BUFFER 48
            [-1, 1, 1, 1, 1, -1, 1, -1, -1, -1, -1, 1] .GL_STATIC_DRAW]
    ∧ (main env fuel).1.trace.filter Call.isLayoutWrite
        = [.glVertexAttribPointer 0 2 .GL_FLOAT .GL_FALSE (2 * sizeof_float) 0,
           .glEnableVertexAttribArray 0]
    ∧ (∀ c ∈ frameCalls env i, c.isBufferWrite = false ∧ c.isLayoutWrite = false)
    ∧ (glRun env.uniformLocation s (frameCalls env i)).buffers = s.buffers
    ∧ (glRun env.uniformLocation s (frameCalls env i)).attribs = s.attribs
    ∧ (glRun env.uniformLocation s (frameCalls env i)).attribEnabled = s.attribEnabled
    ∧ (∀ c ∈ (framebuffer_size_callback window W H World.init).trace,
        c.isBufferWrite = false ∧ c.isLayoutWrite = false)
    ∧ (glRun env.uniformLocation s
          (framebuffer_size_callback window W H World.init).trace).buffers = s.buffers
    ∧ (glRun env.uniformLocation s
          (framebuffer_size_callback window W H World.init).trace).attribs = s.attribs := by
  obtain ⟨n, tail, htail, ht⟩ := main_trace_loop env fuel hw hg hs
  have hquiet := loop_calls_no_write env n tail htail
  refine ⟨?_, ?_, ?_, frameCalls_no_write env i, ?_, ?_, ?_, ?_, ?_, ?_⟩
  · obtain ⟨q, rfl⟩ := hp1
    rw [ht] at hp2
    have hq : q <+: framesCalls env n 0 ++ tail := (List.prefix_append_right_inj _).1 hp2
    have hqq : ∀ c ∈ q, c.isBufferWrite = false ∧ c.isLayoutWrite = false :=
      fun c hc => hquiet c (hq.subset hc)
    obtain ⟨h1, h2, h3⟩ := setupCalls_scene env s
    rw [glRun_append]
    refine ⟨?_, ?_, ?_⟩
    · rw [glRun_buffers _ q (fun c hc => (hqq c hc).1)]; exact h1
    · rw [(glRun_attribs _ q (fun c hc => (hqq c hc).2) _).1]; exact h2
    · rw [(glRun_attribs _ q (fun c hc => (hqq c hc).2) _).2]; exact h3
  · rw [ht, List.filter_append, setupCalls_writes]
    have : (framesCalls env n 0 ++ tail).filter Call.isBufferWrite = [] := by
      rw [List.filter_eq_nil_iff]
      intro c hc
      simp [(hquiet c hc).1]
    rw [this]
    simp [sizeof_vertices, vertices, sizeof_float]
  · rw [ht, List.filter_append, setupCalls_layout_writes]
    have : (framesCalls env n 0 ++ tail).filter Call.isLayoutWrite = [] := by
      rw [List.filter_eq_nil_iff]
      intro c hc
      simp [(hquiet c hc).2]
    rw [this]
    simp
  · exact glRun_buffers _ _ (fun c hc => (frameCalls_no_write env i c hc).1) s
  · exact (glRun_attribs _ _ (fun c hc => (frameCalls_no_write env i c hc).2) s).1
  · exact (glRun_attribs _ _ (fun c hc => (frameCalls_no_write env i c hc).2) s).2
  · simp [framebuffer_size_callback, glViewport, call, World.init, Call.isBufferWrite,
      Call.isLayoutWrite]
  · obtain ⟨v, hv⟩ := glExec_glViewport_frame env.uniformLocation s 0 0 W H
    have : glRun env.uniformLocation s (framebuffer_size_callback window W H World.init).trace
        = glExec env.uniformLocation s (.glViewport 0 0 W H) := by
      simp [framebuffer_size_callback, glViewport, call, World.init, glRun]
    rw [this, hv]
  · obtain ⟨v, hv⟩ := glExec_glViewport_frame env.uniformLocation s 0 0 W H
    have : glRun env.uniformLocation s (framebuffer_size_callback window W H World.init).trace
        = glExec env.uniformLocation s (.glViewport 0 0 W H) := by
      simp [framebuffer_size_callback, glViewport, call, World.init, glRun]
    rw [this, hv]

/-- Witness of C7: at the end of the run of `demoEnv` (two frames, one resize) the scene
is intact. -/
theorem vertex_buffer_never_rewritten_witness :
    SceneIntact demoEnv (glRun demoEnv.uniformLocation GLState.init (main demoEnv 5).1.trace) :=
  (vertex_buffer_never_rewritten demoEnv 5 0 GLState.init 1 800 600 (main demoEnv 5).1.trace
    (by decide) (by decide) rfl
    (by
      obtain ⟨n, tail, _, ht⟩ := main_trace_loop demoEnv 5 (by decide) (by decide) rfl
      exact ⟨_, ht.symm⟩)
    (List.prefix_refl _)).1

/-! ## C8: the geometry of the vertex array -/

theorem toField_vertexAt (K : Type) [LinearOrderedField K] :
    toField K (vertexAt 0) = (-1, 1) ∧ toField K (vertexAt 1) = (1, 1)
    ∧ toField K (vertexAt 2) = (1, -1) ∧ toField K (vertexAt 3) = (1, -1)
    ∧ toField K (vertexAt 4) = (-1, -1) ∧ toField K (vertexAt 5) = (-1, 1) := by
  refine ⟨?_, ?_, ?_, ?_, ?_, ?_⟩ <;> simp [toField, vertexAt, vertices]

theorem tri1_cross (K : Type) [LinearOrderedField K] (p : K × K) :
    cross (toField K (vertexAt 0)) (toField K (vertexAt 1)) p = 2 * (p.2 - 1)
    ∧ cross (toField K (vertexAt 1)) (toField K (vertexAt 2)) p = 2 * (p.1 - 1)
    ∧ cross (toField K (vertexAt 2)) (toField K (vertexAt 0)) p = -2 * (p.1 + p.2) := by
  obtain ⟨v0, v1, v2, _, _, _⟩ := toField_vertexAt K
  rw [v0, v1, v2]
  refine ⟨?_, ?_, ?_⟩ <;> simp only [cross] <;> ring

theorem tri2_cross (K : Type) [LinearOrderedField K] (p : K × K) :
    cross (toField K (vertexAt 3)) (toField K (vertexAt 4)) p = -2 * (p.2 + 1)
    ∧ cross (toField K (vertexAt 4)) (toField K (vertexAt 5)) p = -2 * (p.1 + 1)
    ∧ cross (toField K (vertexAt 5)) (toField K (vertexAt 3)) p = 2 * (p.1 + p.2) := by
  obtain ⟨_, _, _, v3, v4, v5⟩ := toField_vertexAt K
  rw [v3, v4, v5]
  refine ⟨?_, ?_, ?_⟩ <;> simp only [cross] <;> ring

/-- C8: the array `vertices` has 12 floats, i.e. 6 vertices of 2 components (48 bytes); with
the layout recorded by `main` (attribute 0: 2 floats, stride `2 * sizeof(float)`, offset 0)
the draw call `glDrawArrays(GL_TRIANGLES, 0, 6)` fetches exactly the bytes 0..47 of the
buffer, each once, and reads the six vertices TL, TR, BR, BR, BL, TL.  Every coordinate is
-1 or 1; the set of vertices is the set of the four corners; each of the two triangles
(vertices 0-2 and 3-5) has area 2 (sum 4) and both are clockwise; their common vertices
are exactly TL `(-1, 1)` and BR `(1, -1)` and their third vertices lie strictly on opposite
sides of the line through TL and BR.  Over any ordered field: every point of the square
`[-1, 1] x [-1, 1]` lies in one of the two closed triangles, both triangles lie in the
square, and a point of both lies on the diagonal `x + y = 0`. -/
theorem quad_geometry (env : Env) (K : Type) [LinearOrderedField K] (p : K × K) :
    vertices.length = 12 ∧ vertices.length = 6 * 2 ∧ sizeof_vertices = 48
    ∧ fetchedBytes (positionLayout env) 0 6 = List.range sizeof_vertices
    ∧ drawnVertices vertices (positionLayout env) 0 6
        = [[-1, 1], [1, 1], [1, -1], [1, -1], [-1, -1], [-1, 1]]
    ∧ (∀ x ∈ vertices, x = -1 ∨ x = 1)
    ∧ (List.range 6).map vertexAt = [(-1, 1), (1, 1), (1, -1), (1, -1), (-1, -1), (-1, 1)]
    ∧ ((List.range 6).map vertexAt).toFinset = {(-1, 1), (1, 1), (1, -1), (-1, -1)}
    ∧ triangleArea (vertexAt 0) (vertexAt 1) (vertexAt 2) = 2
    ∧ triangleArea (vertexAt 3) (vertexAt 4) (vertexAt 5) = 2
    ∧ triangleArea (vertexAt 0) (vertexAt 1) (vertexAt 2)
        + triangleArea (vertexAt 3) (vertexAt 4) (vertexAt 5) = 4
    ∧ cross (vertexAt 0) (vertexAt 1) (vertexAt 2) < 0
    ∧ cross (vertexAt 3) (vertexAt 4) (vertexAt 5) < 0
    ∧ [vertexAt 0, vertexAt 1, vertexAt 2].filter
          (fun v => decide (v ∈ [vertexAt 3, vertexAt 4, vertexAt 5]))
        = [(-1, 1), (1, -1)]
    ∧ 0 < cross ((-1, 1) : ℚ × ℚ) (1, -1) (vertexAt 1)
    ∧ cross ((-1, 1) : ℚ × ℚ) (1, -1) (vertexAt 4) < 0
    ∧ (-1 ≤ p.1 ∧ p.1 ≤ 1 ∧ -1 ≤ p.2 ∧ p.2 ≤ 1 →
        inTriangle (toField K (vertexAt 0)) (toField K (vertexAt 1)) (toField K (vertexAt 2)) p
        ∨ inTriangle (toField K (vertexAt 3)) (toField K (vertexAt 4))
            (toField K (vertexAt 5)) p)
    ∧ (inTriangle (toField K (vertexAt 0)) (toField K (vertexAt 1)) (toField K (vertexAt 2)) p
        ∨ inTriangle (toField K (vertexAt 3)) (toField K (vertexAt 4))
            (toField K (vertexAt 5)) p →
        -1 ≤ p.1 ∧ p.1 ≤ 1 ∧ -1 ≤ p.2 ∧ p.2 ≤ 1)
    ∧ (inTriangle (toField K (vertexAt 0)) (toField K (vertexAt 1)) (toField K (vertexAt 2)) p →
        inTriangle (toField K (vertexAt 3)) (toField K (vertexAt 4))
            (toField K (vertexAt 5)) p →
        p.1 + p.2 = 0) := by
  obtain ⟨a1, a2, a3⟩ := tri1_cross K p
  obtain ⟨b1, b2, b3⟩ := tri2_cross K p
  refine ⟨rfl, rfl, rfl, rfl, ?_, ?_, ?_, ?_, ?_, ?_, ?_, ?_, ?_, ?_, ?_, ?_, ?_, ?_, ?_⟩
  · simp [drawnVertices, fetchVertex, positionLayout, vertices, sizeof_float, List.range,
      List.range.loop]
  · simp [vertices]
  · simp [vertexAt, vertices, List.range, List.range.loop]
  · simp only [vertexAt, vertices, List.range, List.range.loop]
    ext x
    simp
    tauto
  · simp [triangleArea, cross, vertexAt, vertices]; norm_num
  · simp [triangleArea, cross, vertexAt, vertices]; norm_num
  · simp [triangleArea, cross, vertexAt, vertices]; norm_num
  · simp [cross, vertexAt, vertices]; norm_num
  · simp [cross, vertexAt, vertices]; norm_num
  · decide
  · simp [cross, vertexAt, vertices]; norm_num
  · simp [cross, vertexAt, vertices]; norm_num
  · rintro ⟨h1, h2, h3, h4⟩
    simp only [inTriangle, a1, a2, a3, b1, b2, b3]
    rcases le_total (p.1 + p.2) 0 with h | h
    · right; right; refine ⟨?_, ?_, ?_⟩ <;> linarith
    · left; right; refine ⟨?_, ?_, ?_⟩ <;> linarith
  · simp only [inTriangle, a1, a2, a3, b1, b2, b3]
    rintro ((⟨h1, h2, h3⟩ | ⟨h1, h2, h3⟩) | (⟨h1, h2, h3⟩ | ⟨h1, h2, h3⟩)) <;>
      refine ⟨?_, ?_, ?_, ?_⟩ <;> linarith
  · simp only [inTriangle, a1, a2, a3, b1, b2, b3]
    rintro (⟨h1, h2, h3⟩ | ⟨h1, h2, h3⟩) (⟨h4, h5, h6⟩ | ⟨h4, h5, h6⟩) <;> linarith

/-- Witness of C8: the centre of the square lies in both triangles, on the diagonal. -/
theorem quad_geometry_witness :
    inTriangle (toField ℚ (vertexAt 0)) (toField ℚ (vertexAt 1)) (toField ℚ (vertexAt 2))
        ((0, 0) : ℚ × ℚ)
      ∨ inTriangle (toField ℚ (vertexAt 3)) (toField ℚ (vertexAt 4)) (toField ℚ (vertexAt 5))
        ((0, 0) : ℚ × ℚ) :=
  (quad_geometry demoEnv ℚ (0, 0)).2.2.2.2.2.2.2.2.2.2.2.2.2.2.2.2.1
    ⟨by norm_num, by norm_num, by norm_num, by norm_num⟩

/-! ## C9: the resolution uniform -/

theorem framesCalls_forall (env : Env) (P : Call → Prop)
    (hcheck : P (.glfwWindowShouldClose env.createWindow))
    (hframe : ∀ i, ∀ c ∈ frameCalls env i, P c) (n : Nat) :
    ∀ i, ∀ c ∈ framesCalls env n i, P c := by
  induction n with
  | zero => intro i c hc; simp [framesCalls] at hc
  | succ n ih =>
    intro i c hc
    simp only [framesCalls, List.cons_append, List.mem_cons, List.mem_append] at hc
    rcases hc with rfl | hc | hc
    · exact hcheck
    · exact hframe i c hc
    · exact ih (i + 1) c hc

/-- A property of calls holds for every call of every run as soon as it holds for the calls
of each part of `main`. -/
theorem main_trace_forall (env : Env) (fuel : Nat) (P : Call → Prop)
    (hwin : ∀ c ∈ windowCalls env, P c) (hctx : ∀ c ∈ contextCalls env, P c)
    (hscene : ∀ c ∈ sceneCalls env, P c) (hframe : ∀ i, ∀ c ∈ frameCalls env i, P c)
    (hcheck : P (.glfwWindowShouldClose env.createWindow))
    (hterm : P .glfwTerminate) (hprint : ∀ text, P (.fprintf_stderr text))
    (hdiag : ∀ text, P (.shaderDiagnostic text)) :
    ∀ c ∈ (main env fuel).1.trace, P c := by
  have hctx1 : P (.glfwMakeContextCurrent env.createWindow) :=
    hctx _ (by simp [contextCalls])
  have hctx2 : P .gladLoadGLLoader := hctx _ (by simp [contextCalls])
  rcases main_trace_cases env fuel with ht | ht | ht | ⟨n, tail, htail, ht⟩
  · rw [ht]
    apply forall_mem_append_of hwin
    intro c hc
    simp only [List.mem_cons, List.mem_singleton, List.not_mem_nil, or_false] at hc
    rcases hc with rfl | rfl
    · exact hterm
    · exact hprint _
  · rw [ht]
    apply forall_mem_append_of hwin
    intro c hc
    simp only [List.mem_cons, List.mem_singleton, List.not_mem_nil, or_false] at hc
    rcases hc with rfl | rfl | rfl | rfl
    · exact hctx1
    · exact hctx2
    · exact hterm
    · exact hprint _
  · rw [ht]
    apply forall_mem_append_of (forall_mem_append_of hwin hctx)
    intro c hc
    rw [List.mem_singleton.1 hc]
    exact hdiag _
  · rw [ht]
    apply forall_mem_append_of
      (forall_mem_append_of
        (forall_mem_append_of (forall_mem_append_of hwin hctx) hscene)
        (framesCalls_forall env P hcheck hframe n 0))
    rcases htail with rfl | rfl
    · intro c hc; simp at hc
    · intro c hc
      rw [List.mem_singleton.1 hc]
      exact hcheck

theorem glRun_callbackCalls_viewport (loc : Nat → String → Int) (events : List (Int × Int))
    (W H : Int) (s : GLState) (hW : 0 ≤ W) (hH : 0 ≤ H)
    (hWmax : W ≤ s.maxViewportWidth) (hHmax : H ≤ s.maxViewportHeight) :
    (glRun loc s (callbackCalls (events ++ [(W, H)]))).viewport = ⟨0, 0, W, H⟩ := by
  have hsplit : callbackCalls (events ++ [(W, H)])
      = callbackCalls events ++ [.glViewport 0 0 W H] := by
    simp [callbackCalls]
  have hm := glRun_maxViewport loc (callbackCalls events) s
  have hlast : glRun loc (glRun loc s (callbackCalls events)) [.glViewport 0 0 W H]
      = glExec loc (glRun loc s (callbackCalls events)) (.glViewport 0 0 W H) := rfl
  rw [hsplit, glRun_append, hlast,
    glExec_glViewport_valid loc _ 0 0 W H hW hH (by rw [hm.1]; exact hWmax)
      (by rw [hm.2]; exact hHmax)]

theorem callbackCalls_filter_uniform (events : List (Int × Int)) :
    (callbackCalls events).filter Call.isUniform3fv = [] := by
  rw [List.filter_eq_nil_iff]
  intro c hc
  simp only [callbackCalls, List.mem_map] at hc
  obtain ⟨e, _, rfl⟩ := hc
  simp [Call.isUniform3fv]

/-- C9 (amended): the array `resolution` is `(640, 640, 1)`.  Every `glUniform3fv` call
of every run (whatever resize events are delivered, however many frames are rendered)
uploads one vector, to the location of "iResolution" in the shader program, with exactly
this value; the setup issues one such call and every frame issues one.  The resize callback
leaves every uniform as it was, for all integers `W`, `H`; when `W` and `H` are
non-negative and do not exceed `GL_MAX_VIEWPORT_DIMS` it sets the viewport to
`(0, 0, W, H)`, and in a frame whose last delivered resize event is such a `(W, H)` the
draw call is issued with viewport `(0, 0, W, H)` while "iResolution" holds `(640, 640, 1)`
(for a real program name and an active uniform), as it does at the draw call of every frame
and of every run, whatever the delivered events. -/
theorem resolution_uniform_constant (env : Env) (fuel i : Nat) (s : GLState)
    (window : Nat) (W H : Int) (events : List (Int × Int))
    (hW : 0 ≤ W) (hH : 0 ≤ H)
    (hWmax : W ≤ s.maxViewportWidth) (hHmax : H ≤ s.maxViewportHeight) :
    resolution = [640, 640, 1]
    ∧ (∀ c ∈ (main env fuel).1.trace, ∀ location count value,
        c = .glUniform3fv location count value →
          location = env.uniformLocation env.shader.program "iResolution"
          ∧ count = 1 ∧ value = [640, 640, 1])
    ∧ (sceneCalls env).filter Call.isUniform3fv
        = [.glUniform3fv (env.uniformLocation env.shader.program "iResolution") 1
            [640, 640, 1]]
    ∧ (frameCalls env i).filter Call.isUniform3fv
        = [.glUniform3fv (env.uniformLocation env.shader.program "iResolution") 1
            [640, 640, 1]]
    ∧ (glRun env.uniformLocation s
          (framebuffer_size_callback window W H World.init).trace).viewport = ⟨0, 0, W, H⟩
    ∧ (∀ W2 H2 : Int, (glRun env.uniformLocation s
          (framebuffer_size_callback window W2 H2 World.init).trace).uniforms = s.uniforms)
    ∧ (env.resizeEvents i = events ++ [(W, H)] →
        ∃ sD, glDrawStates env.uniformLocation s (frameCalls env i) = [sD]
          ∧ sD.viewport = ⟨0, 0, W, H⟩ ∧ DrawReady env sD)
    ∧ (∃ sD, glDrawStates env.uniformLocation s (frameCalls env i) = [sD]
        ∧ DrawReady env sD)
    ∧ (∀ sD ∈ glDrawStates env.uniformLocation s (main env fuel).1.trace,
        DrawReady env sD) := by
  have hres : resolution = [640, 640, 1] := by
    simp [resolution, SCREEN_WIDTH, SCREEN_HEIGHT]
  have hcb : ∀ W2 H2 : Int,
      glRun env.uniformLocation s (framebuffer_size_callback window W2 H2 World.init).trace
        = glExec env.uniformLocation s (.glViewport 0 0 W2 H2) := by
    intro W2 H2
    simp [framebuffer_size_callback, glViewport, call, World.init, glRun]
  refine ⟨hres, ?_, ?_, ?_, ?_, ?_, ?_, ?_, main_drawStates env fuel s⟩
  · apply main_trace_forall env fuel
    · cases hap : env.apple <;> simp [windowCalls, initGlfwCalls, hap]
    · simp [contextCalls]
    · simp [sceneCalls, hres]
    · intro j c hc
      simp only [frameCalls, List.mem_append] at hc
      rcases hc with (hc | hc) | hc
      · revert hc; revert c; simp
      · simp only [callbackCalls, List.mem_map] at hc
        obtain ⟨e, _, rfl⟩ := hc
        simp
      · revert hc; revert c; simp [renderCalls, hres]
    · simp
    · simp
    · simp
    · simp
  · simp [sceneCalls, List.filter, Call.isUniform3fv, hres]
  · rw [frameCalls, List.filter_append, List.filter_append, callbackCalls_filter_uniform]
    simp [renderCalls, List.filter, Call.isUniform3fv, hres]
  · rw [hcb, glExec_glViewport_valid _ s 0 0 W H hW hH hWmax hHmax]
  · intro W2 H2
    obtain ⟨v, hv⟩ := glExec_glViewport_frame env.uniformLocation s 0 0 W2 H2
    rw [hcb, hv]
  · intro hev
    obtain ⟨sD, h1, h2, _, h4⟩ := renderCalls_drawStates env (2 * i + 2)
      (glRun env.uniformLocation
        (glRun env.uniformLocation s [.glfwGetTime, .glfwPollEvents])
        (callbackCalls (env.resizeEvents i)))
    have hm := glRun_maxViewport env.uniformLocation [.glfwGetTime, .glfwPollEvents] s
    refine ⟨sD, ?_, ?_, h2⟩
    · rw [frameCalls, drawStates_append, drawStates_append, glRun_append, h1,
        drawStates_of_no_draw _ _ (callbackCalls_no_draw _)]
      simp [glDrawStates, Call.isDraw]
    · rw [h4, hev, glRun_callbackCalls_viewport _ _ _ _ _ hW hH (by rw [hm.1]; exact hWmax)
        (by rw [hm.2]; exact hHmax)]
  · obtain ⟨sD, h1, h2, _⟩ := frameCalls_drawStates env i s
    exact ⟨sD, h1, h2⟩

/-- Witness of C9 (amended): in `demoEnv` the second poll delivers a resize to 800 x 600;
the draw call of that frame is issued with viewport `(0, 0, 800, 600)` and a state ready to
draw. -/
theorem resolution_uniform_constant_witness :
    ∃ sD, glDrawStates demoEnv.uniformLocation GLState.init (frameCalls demoEnv 1) = [sD]
      ∧ sD.viewport = ⟨0, 0, 800, 600⟩ ∧ DrawReady demoEnv sD :=
  (resolution_uniform_constant demoEnv 5 1 GLState.init 1 800 600 [] (by decide) (by decide)
    (by decide) (by decide)).2.2.2.2.2.2.1 rfl

/-- Counterexample to C9 as stated: in the run of `negativeResizeEnv` the first poll
delivers the resize event `(-5, 7)`, which differs from `(640, 640)`, and the callback
issues `glViewport(0, 0, -5, 7)`; yet the draw call of that frame is issued with the
viewport `(0, 0, 640, 640)` of the setup, not `(0, 0, -5, 7)`. -/
theorem resize_to_negative_size_keeps_viewport :
    Call.glViewport 0 0 (-5) 7 ∈ (main negativeResizeEnv 1).1.trace
    ∧ (glDrawStates negativeResizeEnv.uniformLocation GLState.init
          (main negativeResizeEnv 1).1.trace).map (fun sD => sD.viewport)
        = [⟨0, 0, 640, 640⟩]
    ∧ (⟨0, 0, 640, 640⟩ : Viewport) ≠ ⟨0, 0, -5, 7⟩ := by
  decide

/-! ## C10: the timing scaffolding is dead -/

theorem frameCalls_withClock (env : Env) (clock2 : Nat → ℚ)
    (h : ∀ n, clock2 (2 * n + 2) = env.clock (2 * n + 2)) (i : Nat) :
    frameCalls (env.withClock clock2) i = frameCalls env i := by
  simp [frameCalls, renderCalls, Env.withClock, h i]

theorem render_loop_withClock (env : Env) (clock2 : Nat → ℚ)
    (h : ∀ n, clock2 (2 * n + 2) = env.clock (2 * n + 2)) (fuel : Nat) :
    ∀ (i : Nat) (ls ls2 : Locals) (pre : List Call),
      render_loop (env.withClock clock2) env.createWindow { ID := env.shader.program }
          (env.genVertexArray + 1) (env.genBuffer + 1) fuel ls2 (loopWorld env pre i)
        = render_loop env env.createWindow { ID := env.shader.program }
            (env.genVertexArray + 1) (env.genBuffer + 1) fuel ls (loopWorld env pre i) := by
  induction fuel with
  | zero => intro i ls ls2 pre; rfl
  | succ fuel ih =>
    intro i ls ls2 pre
    by_cases hflag : env.shouldClose i = 0
    · obtain ⟨l1, e1⟩ := render_loop_step env pre i fuel ls hflag
      obtain ⟨l2, e2⟩ := render_loop_step (env.withClock clock2) pre i fuel ls2 hflag
      rw [frameCalls_withClock env clock2 h i] at e2
      exact (e2.trans (ih (i + 1) l1 l2 _)).trans e1.symm
    · exact (render_loop_closed (env.withClock clock2) pre i fuel ls2 hflag).trans
        (render_loop_closed env pre i fuel ls hflag).symm

/-- C10: two runs that agree on everything except the clock readings that feed the
delta-time accumulation (reading 0, which initialises `previous_time` and `timer`, and the
first reading of every frame, which becomes `now_time`), and so agree on the readings passed
to `SetFloat`, on the close-flag observations and on the delivered events, issue the same
calls, consume the same observations and end the same way, whatever the fuel.  Inside the
loop neither the calls of a frame nor the outcome of the loop depend on the values of
`previous_time`, `timer`, `delta_time`, `now_time`, `frames`, `updates` the iteration starts
with.  And as long as the close flag is clear a frame is rendered at every iteration,
whatever the clock says: after `fuel` clear checks there are `fuel` draw calls. -/
theorem timing_does_not_gate (env : Env) (clock2 : Nat → ℚ) (fuel i : Nat)
    (ls ls2 : Locals) (w : World) (pre : List Call) (window vao vbo : Nat)
    (shader : ShaderPtr)
    (h : ∀ n, clock2 (2 * n + 2) = env.clock (2 * n + 2)) :
    main (env.withClock clock2) fuel = main env fuel
    ∧ (frame env window shader vao vbo ls w).2 = (frame env window shader vao vbo ls2 w).2
    ∧ render_loop env env.createWindow { ID := env.shader.program }
          (env.genVertexArray + 1) (env.genBuffer + 1) fuel ls (loopWorld env pre i)
        = render_loop env env.createWindow { ID := env.shader.program }
            (env.genVertexArray + 1) (env.genBuffer + 1) fuel ls2 (loopWorld env pre i)
    ∧ (env.createWindow ≠ 0 → env.gladLoad ≠ 0 → env.shaderBuilds = true →
        (∀ j, j < fuel → env.shouldClose j = 0) →
        (main (env.withClock clock2) fuel).1.trace.countP Call.isDraw = fuel
        ∧ (main (env.withClock clock2) fuel).2 = .running) := by
  have hmain : main (env.withClock clock2) fuel = main env fuel := by
    by_cases hw : env.createWindow = 0
    · exact (main_window_fails (env.withClock clock2) fuel hw).trans
        (main_window_fails env fuel hw).symm
    by_cases hg : env.gladLoad = 0
    · exact (main_glad_fails (env.withClock clock2) fuel hw hg).trans
        (main_glad_fails env fuel hw hg).symm
    by_cases hs : env.shaderBuilds = true
    · exact ((main_reaches_loop (env.withClock clock2) fuel hw hg hs).trans
        (render_loop_withClock env clock2 h fuel 0 (loopLocals env) _ (setupCalls env))).trans
        (main_reaches_loop env fuel hw hg hs).symm
    · exact (main_shader_fails (env.withClock clock2) fuel hw hg (by simpa using hs)).trans
        (main_shader_fails env fuel hw hg (by simpa using hs)).symm
  refine ⟨hmain, rfl, ?_, ?_⟩
  · exact (render_loop_withClock env env.clock (fun _ => rfl) fuel i ls ls2 pre).symm
  · intro hw hg hs hclear
    rw [hmain]
    rcases main_loop_shape env fuel hw hg hs with ⟨n, hn, _, hnz, _⟩ | ⟨_, hrun⟩
    · exact absurd (hclear n hn) hnz
    · rw [hrun]
      obtain ⟨s1, _, _⟩ := setupCalls_countP env
      obtain ⟨f1, _, _⟩ := framesCalls_countP env fuel 0
      exact ⟨by simp [loopWorld, List.countP_append, s1, f1], rfl⟩

/-- Witness of C10: replacing every delta-time reading of `demoEnv` by 0 (no time elapses
between iterations) changes nothing in the run. -/
theorem timing_does_not_gate_witness :
    main (demoEnv.withClock fun n => if n % 2 = 0 ∧ 0 < n then demoEnv.clock n else 0) 5
      = main demoEnv 5 :=
  (timing_does_not_gate demoEnv (fun n => if n % 2 = 0 ∧ 0 < n then demoEnv.clock n else 0)
    5 0 (loopLocals demoEnv) (loopLocals demoEnv) World.init [] 1 1 1 { ID := 3 }
    (by intro n; simp [Nat.add_mod])).1

/-! ## C6: the time uniform -/

theorem roundHalfEven_bounds (t : ℚ) : ⌊t⌋ ≤ roundHalfEven t ∧ roundHalfEven t ≤ ⌊t⌋ + 1 := by
  unfold roundHalfEven
  split_ifs <;> constructor <;> omega

theorem roundHalfEven_intCast (n : ℤ) : roundHalfEven (n : ℚ) = n := by
  simp [roundHalfEven]

theorem roundHalfEven_mono {s t : ℚ} (h : s ≤ t) : roundHalfEven s ≤ roundHalfEven t := by
  have hfl : ⌊s⌋ ≤ ⌊t⌋ := Int.floor_mono h
  rcases hfl.lt_or_eq with hlt | heq
  · exact le_trans (roundHalfEven_bounds s).2 (le_trans (by omega) (roundHalfEven_bounds t).1)
  · have hfr : s - ⌊s⌋ ≤ t - ⌊t⌋ := by rw [heq]; linarith
    unfold roundHalfEven
    rw [heq] at hfr ⊢
    split_ifs <;> first | omega | (exfalso; linarith)

theorem quantum_pos (x : ℚ) : 0 < quantum x := by
  unfold quantum; positivity

theorem roundToGrid_nonneg {x : ℚ} (hx : 0 ≤ x) : 0 ≤ roundToGrid x := by
  have h0 : (0 : ℚ) ≤ x / quantum x := div_nonneg hx (quantum_pos x).le
  have h1 : (0 : ℤ) ≤ roundHalfEven (x / quantum x) :=
    le_trans (Int.floor_nonneg.2 h0) (roundHalfEven_bounds _).1
  exact mul_nonneg (by exact_mod_cast h1) (quantum_pos x).le

theorem roundToGrid_zero : roundToGrid 0 = 0 := by
  have : roundHalfEven (0 : ℚ) = 0 := by simpa using roundHalfEven_intCast 0
  simp [roundToGrid, this]

theorem roundToGrid_le_next (x : ℚ) : roundToGrid x ≤ 2 ^ (binade x + 1) := by
  have hlt : x < 2 ^ (binade x + 1) := by
    have h1 : x < ((2 : ℕ) : ℚ) ^ (Int.log 2 x + 1) := Int.lt_zpow_succ_log_self (by norm_num) x
    have h2 : ((2 : ℕ) : ℚ) ^ (Int.log 2 x + 1) ≤ 2 ^ (binade x + 1) := by
      simp only [Nat.cast_ofNat]
      exact zpow_le_zpow_right₀ (by norm_num) (by simp [binade])
    exact lt_of_lt_of_le h1 h2
  have hsplit : (2 : ℚ) ^ (binade x + 1) = ((2 ^ 24 : ℤ) : ℚ) * quantum x := by
    unfold quantum
    rw [show binade x + 1 = 24 + (binade x - 23) by ring, zpow_add₀ (by norm_num)]
    norm_num
  have hdiv : x / quantum x ≤ ((2 ^ 24 : ℤ) : ℚ) := by
    rw [div_le_iff₀ (quantum_pos x), ← hsplit]
    exact hlt.le
  have hr : roundHalfEven (x / quantum x) ≤ 2 ^ 24 := by
    have := roundHalfEven_mono hdiv
    rwa [roundHalfEven_intCast] at this
  rw [hsplit]
  unfold roundToGrid
  exact mul_le_mul_of_nonneg_right (by exact_mod_cast hr) (quantum_pos x).le

theorem roundToGrid_ge_binade {x : ℚ} (hx : 0 < x) (hn : -126 ≤ Int.log 2 x) :
    2 ^ binade x ≤ roundToGrid x := by
  have hb : binade x = Int.log 2 x := by simp [binade, hn]
  have hle : (2 : ℚ) ^ binade x ≤ x := by
    have h1 : ((2 : ℕ) : ℚ) ^ Int.log 2 x ≤ x := Int.zpow_log_le_self (by norm_num) hx
    rw [hb]
    simpa using h1
  have hsplit : (2 : ℚ) ^ binade x = ((2 ^ 23 : ℤ) : ℚ) * quantum x := by
    unfold quantum
    rw [show binade x = 23 + (binade x - 23) by ring, zpow_add₀ (by norm_num)]
    norm_num
  have hdiv : ((2 ^ 23 : ℤ) : ℚ) ≤ x / quantum x := by
    rw [le_div_iff₀ (quantum_pos x), ← hsplit]
    exact hle
  have hr : 2 ^ 23 ≤ roundHalfEven (x / quantum x) := by
    have := roundHalfEven_mono hdiv
    rwa [roundHalfEven_intCast] at this
  rw [hsplit]
  unfold roundToGrid
  exact mul_le_mul_of_nonneg_right (by exact_mod_cast hr) (quantum_pos x).le

theorem binade_mono {x y : ℚ} (hx : 0 < x) (h : x ≤ y) : binade x ≤ binade y := by
  unfold binade
  exact max_le_max (Int.log_mono_right hx h) le_rfl

theorem roundToGrid_mono {x y : ℚ} (hx : 0 ≤ x) (h : x ≤ y) : roundToGrid x ≤ roundToGrid y := by
  rcases hx.eq_or_lt with h0 | hpos
  · rw [← h0, roundToGrid_zero]
    exact roundToGrid_nonneg (hx.trans h)
  · rcases (binade_mono hpos h).eq_or_lt with heq | hlt
    · have hq : quantum x = quantum y := by unfold quantum; rw [heq]
      unfold roundToGrid
      rw [hq]
      have : x / quantum y ≤ y / quantum y :=
        div_le_div_of_nonneg_right h (quantum_pos y).le
      exact mul_le_mul_of_nonneg_right (by exact_mod_cast roundHalfEven_mono this)
        (quantum_pos y).le
    · have hn : -126 ≤ Int.log 2 y := by
        by_contra hc
        have : binade y = -126 := by simp [binade]; omega
        have : -126 ≤ binade x := by simp [binade]
        omega
      calc roundToGrid x ≤ 2 ^ (binade x + 1) := roundToGrid_le_next x
        _ ≤ 2 ^ binade y := zpow_le_zpow_right₀ (by norm_num) (by omega)
        _ ≤ roundToGrid y := roundToGrid_ge_binade (hpos.trans_le h) hn

theorem roundBinary32_mono {x y : ℚ} (hx : 0 ≤ x) (h : x ≤ y) :
    roundBinary32 x ≤ roundBinary32 y := by
  have hm := roundToGrid_mono hx h
  unfold roundBinary32
  by_cases hy : roundToGrid y < 2 ^ (128 : ℤ)
  · rw [if_pos hy, if_pos (lt_of_le_of_lt hm hy)]
    exact WithTop.coe_le_coe.2 hm
  · rw [if_neg hy]
    exact le_top

theorem roundBinary32_nonneg {x : ℚ} (hx : 0 ≤ x) : ((0 : ℚ) : WithTop ℚ) ≤ roundBinary32 x := by
  unfold roundBinary32
  split_ifs
  · exact WithTop.coe_le_coe.2 (roundToGrid_nonneg hx)
  · exact le_top

theorem doubleToFloat_mono {x y : ℚ} (h : x ≤ y) : doubleToFloat x ≤ doubleToFloat y := by
  unfold doubleToFloat
  by_cases hx : 0 ≤ x
  · rw [if_pos hx, if_pos (hx.trans h)]
    exact WithBot.coe_le_coe.2 (roundBinary32_mono hx h)
  · rw [if_neg hx]
    have hx' : 0 ≤ -x := by linarith
    by_cases hy : 0 ≤ y
    · rw [if_pos hy]
      have h1 := roundBinary32_nonneg hx'
      have h2 := roundBinary32_nonneg hy
      cases hrx : roundBinary32 (-x) with
      | top => exact bot_le
      | coe v =>
        rw [hrx] at h1
        have hv : 0 ≤ v := WithTop.coe_le_coe.1 h1
        refine WithBot.coe_le_coe.2 (le_trans (WithTop.coe_le_coe.2 ?_) h2)
        linarith
    · rw [if_neg hy]
      have hy' : 0 ≤ -y := by linarith
      have hm := roundBinary32_mono hy' (by linarith : -y ≤ -x)
      cases hrx : roundBinary32 (-x) with
      | top => exact bot_le
      | coe v =>
        cases hry : roundBinary32 (-y) with
        | top => rw [hrx, hry] at hm; simp at hm
        | coe u =>
          rw [hrx, hry] at hm
          have huv : u ≤ v := WithTop.coe_le_coe.1 hm
          exact WithBot.coe_le_coe.2 (WithTop.coe_le_coe.2 (by linarith))

theorem iTimeUploads_of_none (xs : List Call) (h : ∀ c ∈ xs, c.iTimeValue = none) :
    iTimeUploads xs = [] := by
  unfold iTimeUploads
  rw [List.filterMap_eq_nil_iff]
  exact h

theorem iTimeUploads_frameCalls (env : Env) (i : Nat) :
    iTimeUploads (frameCalls env i) = [doubleToFloat (env.clock (2 * i + 2))] := by
  have hcb : iTimeUploads (callbackCalls (env.resizeEvents i)) = [] := by
    apply iTimeUploads_of_none
    intro c hc
    simp only [callbackCalls, List.mem_map] at hc
    obtain ⟨e, _, rfl⟩ := hc
    rfl
  unfold iTimeUploads at hcb ⊢
  rw [frameCalls, List.filterMap_append, List.filterMap_append, hcb]
  simp [renderCalls, List.filterMap, Call.iTimeValue]

theorem iTimeUploads_framesCalls (env : Env) (n : Nat) :
    ∀ i, iTimeUploads (framesCalls env n i)
      = (List.range n).map fun N => doubleToFloat (env.clock (2 * (i + N) + 2)) := by
  induction n with
  | zero => intro i; rfl
  | succ n ih =>
    intro i
    have hf := iTimeUploads_frameCalls env i
    have hn := ih (i + 1)
    unfold iTimeUploads at hf hn ⊢
    rw [framesCalls, List.filterMap_append, List.filterMap_cons, hf, hn, List.range_succ_eq_map]
    simp [Call.iTimeValue, Nat.add_assoc, Nat.add_comm 1]

/-- The values uploaded to "iTime" in a run: one per frame, frame `N` uploading the
conversion of clock reading number `2 * N + 2`. -/
theorem main_iTimeUploads (env : Env) (fuel : Nat) :
    ∃ n, iTimeUploads (main env fuel).1.trace
      = (List.range n).map fun N => doubleToFloat (env.clock (2 * N + 2)) := by
  rcases main_trace_cases env fuel with ht | ht | ht | ⟨n, tail, htail, ht⟩
  · refine ⟨0, ?_⟩
    rw [ht]
    apply iTimeUploads_of_none
    cases hap : env.apple <;> simp [windowCalls, initGlfwCalls, hap, Call.iTimeValue]
  · refine ⟨0, ?_⟩
    rw [ht]
    apply iTimeUploads_of_none
    cases hap : env.apple <;> simp [windowCalls, initGlfwCalls, hap, Call.iTimeValue]
  · refine ⟨0, ?_⟩
    rw [ht]
    apply iTimeUploads_of_none
    cases hap : env.apple <;>
      simp [windowCalls, initGlfwCalls, contextCalls, hap, Call.iTimeValue]
  · refine ⟨n, ?_⟩
    have hsetup : iTimeUploads (setupCalls env) = [] := by
      apply iTimeUploads_of_none
      cases hap : env.apple <;>
        simp [setupCalls, windowCalls, initGlfwCalls, contextCalls, sceneCalls, hap,
          Call.iTimeValue]
    have htl : iTimeUploads tail = [] := by
      apply iTimeUploads_of_none
      rcases htail with rfl | rfl <;> simp [Call.iTimeValue]
    have hfr := iTimeUploads_framesCalls env n 0
    unfold iTimeUploads at hsetup htl hfr ⊢
    rw [ht, List.filterMap_append, List.filterMap_append, hsetup, htl, hfr]
    simp

/-- C6: if successive readings of the clock never decrease, then in every run the values
uploaded to "iTime" never decrease from one frame to the next (indeed the whole sequence of
uploads is sorted).  The uploads are, frame by frame, the `double`-to-`float` conversions
of the clock readings number 2, 4, 6, ...: in iteration `i` the loop takes reading
`2 * i + 1` into `now_time` (and `previous_time`) before polling events, and after polling,
clearing, binding and `Use` takes reading `2 * i + 2`, converts it and passes it to
`SetFloat(shader, "iTime", ·)`; the conversion itself is monotone. -/
theorem iTime_never_decreases (env : Env) (fuel i : Nat) (pre : List Call) (ls : Locals)
    (hclock : ∀ n, env.clock n ≤ env.clock (n + 1)) :
    (∀ N v1 v2, (iTimeUploads (main env fuel).1.trace)[N]? = some v1 →
        (iTimeUploads (main env fuel).1.trace)[N + 1]? = some v2 → v1 ≤ v2)
    ∧ (iTimeUploads (main env fuel).1.trace).Pairwise (fun v1 v2 => v1 ≤ v2)
    ∧ (∃ n, iTimeUploads (main env fuel).1.trace
        = (List.range n).map fun N => doubleToFloat (env.clock (2 * N + 2)))
    ∧ (frame env env.createWindow { ID := env.shader.program } (env.genVertexArray + 1)
          (env.genBuffer + 1) ls
          (glfwWindowShouldClose env env.createWindow (loopWorld env pre i)).2).1.now_time
        = env.clock (2 * i + 1)
    ∧ (frame env env.createWindow { ID := env.shader.program } (env.genVertexArray + 1)
          (env.genBuffer + 1) ls
          (glfwWindowShouldClose env env.createWindow (loopWorld env pre i)).2).2
        = loopWorld env (pre ++ (.glfwWindowShouldClose env.createWindow :: frameCalls env i))
            (i + 1)
    ∧ (∃ rest, frameCalls env i
        = [.glfwGetTime, .glfwPollEvents] ++ callbackCalls (env.resizeEvents i)
          ++ [.glClear .GL_COLOR_BUFFER_BIT, .glBindVertexArray (env.genVertexArray + 1),
              .Use { ID := env.shader.program }, .glfwGetTime,
              .SetFloat { ID := env.shader.program } "iTime"
                (doubleToFloat (env.clock (2 * i + 2)))] ++ rest)
    ∧ iTimeUploads (frameCalls env i) = [doubleToFloat (env.clock (2 * i + 2))]
    ∧ (∀ x y : ℚ, x ≤ y → doubleToFloat x ≤ doubleToFloat y) := by
  have hmono : Monotone env.clock := monotone_nat_of_le_succ hclock
  have hf : ∀ a b : Nat, a ≤ b →
      doubleToFloat (env.clock (2 * a + 2)) ≤ doubleToFloat (env.clock (2 * b + 2)) :=
    fun a b hab => doubleToFloat_mono (hmono (by omega))
  obtain ⟨n, hn⟩ := main_iTimeUploads env fuel
  refine ⟨?_, ?_, ⟨n, hn⟩, ?_, frame_loopWorld env pre i ls, ?_,
    iTimeUploads_frameCalls env i, fun x y h => doubleToFloat_mono h⟩
  · intro N v1 v2 h1 h2
    rw [hn] at h1 h2
    simp only [List.getElem?_map, List.getElem?_range, Option.map_eq_some'] at h1 h2
    obtain ⟨a, ha, rfl⟩ := h1
    obtain ⟨b, hb, rfl⟩ := h2
    have ha' : a = N := by
      by_cases hlt : N < n
      · rw [List.getElem?_range hlt] at ha; exact (Option.some.inj ha).symm
      · rw [List.getElem?_eq_none (by simpa using hlt)] at ha; exact absurd ha (by simp)
    have hb' : b = N + 1 := by
      by_cases hlt : N + 1 < n
      · rw [List.getElem?_range hlt] at hb; exact (Option.some.inj hb).symm
      · rw [List.getElem?_eq_none (by simpa using hlt)] at hb; exact absurd hb (by simp)
    exact hf a b (by omega)
  · rw [hn, List.pairwise_map]
    exact List.Pairwise.imp (fun {a b} hab => hf a b (Nat.le_of_lt hab))
      (List.pairwise_lt_range n)
  · simp [frame, glfwGetTime, glfwWindowShouldClose, loopWorld, call]
  · exact ⟨[.GetID { ID := env.shader.program },
        .glGetUniformLocation env.shader.program "iResolution",
        .glUniform3fv (env.uniformLocation env.shader.program "iResolution") 1 resolution,
        .glBindBuffer .GL_ARRAY_BUFFER (env.genBuffer + 1), .glDrawArrays .GL_TRIANGLES 0 6,
        .glBindVertexArray 0, .glfwSwapBuffers env.createWindow],
      by simp [frameCalls, renderCalls]⟩

/-- Witness of C6: the clock of `demoEnv` advances by a quarter of a second per reading. -/
theorem iTime_never_decreases_witness :
    (iTimeUploads (main demoEnv 5).1.trace).Pairwise (fun v1 v2 => v1 ≤ v2) :=
  (iTime_never_decreases demoEnv 5 0 [] (loopLocals demoEnv)
    (by intro n; simp only [demoEnv]; push_cast; linarith)).2.1

end GraphicsDemo
